import Mathlib

structure PyDateTime where
  year : Int
  month : Int
  day : Int
  hour : Int := 0
  minute : Int := 0
  second : Int := 0
  tzOffsetMinutes : Option Int := Option.none
deriving Repr, DecidableEq

/-- Embedded Python/JSON values as they flow through the library: `None`,
booleans, ints, floats (as rationals), strings, `datetime` objects, lists and
dicts (association lists in insertion order). -/

inductive PyVal where
  | none
  | bool (b : Bool)
  | int (n : Int)
  | float (q : Rat)
  | str (s : String)
  | dt (d : PyDateTime)
  | list (xs : List PyVal)
  | dict (entries : List (String × PyVal))
deriving Repr

/-- A Python dict with string keys, in insertion order. -/

abbrev PyDict := List (String × PyVal)

/-- Embeds `d[k]` lookup returning an `Option` (Python `dict.get(k)`). -/

def dictGet (d : PyDict) (k : String) : Option PyVal :=
  match d with
  | [] => Option.none
  | (k2, v) :: rest => if k2 = k then some v else dictGet rest k

/-- Python `dict.get(k, default)`. -/

def dictGetD (d : PyDict) (k : String) (dflt : PyVal) : PyVal :=
  (dictGet d k).getD dflt

/-- Python `k in dict`. -/

def dictContains (d : PyDict) (k : String) : Bool :=
  (dictGet d k).isSome

/-- Python `dict[k] = v`: updates the value in place if the key exists
(keeping its position, as CPython dicts do), otherwise appends. -/

def dictSet (d : PyDict) (k : String) (v : PyVal) : PyDict :=
  match d with
  | [] => [(k, v)]
  | (k2, v2) :: rest =>
    if k2 = k then (k2, v) :: rest else (k2, v2) :: dictSet rest k v

/-- Python `dict.update(extra)` / merging: sets every key of `extra` into `d`
in order. -/

def dictUpdate (d : PyDict) (extra : PyDict) : PyDict :=
  extra.foldl (fun acc kv => dictSet acc kv.1 kv.2) d

/-- Python truthiness of an embedded value. -/

def pyTruthy : PyVal → Bool
  | .none => false
  | .bool b => b
  | .int n => n != 0
  | .float q => q != 0
  | .str s => s.length != 0
  | .dt _ => true
  | .list xs => !xs.isEmpty
  | .dict es => !es.isEmpty

/-- Python `v == "lit"` where `v` is an arbitrary value (possibly absent):
only a string equal to the literal compares equal; any other type, or an
absent value, compares unequal without error. -/

def pyEqStr (v : Option PyVal) (lit : String) : Bool :=
  match v with
  | some (.str s) => s = lit
  | _ => false

/-- Python `str.isdigit` on a single character. CPython accepts every
character with Unicode property Numeric_Type = Digit or Decimal; we model the
decimal-digit ranges the library's inputs exercise (ASCII, Arabic-Indic,
Extended Arabic-Indic, Devanagari, fullwidth) plus the superscript digits;
other exotic digit ranges are outside the model. -/

def pyIsDigitChar (c : Char) : Bool :=
  (('0' ≤ c) && (c ≤ '9')) ||
  (0x660 ≤ c.val && c.val ≤ 0x669) ||
  (0x6F0 ≤ c.val && c.val ≤ 0x6F9) ||
  (0x966 ≤ c.val && c.val ≤ 0x96F) ||
  (0xFF10 ≤ c.val && c.val ≤ 0xFF19) ||
  (c.val = 0xB2 || c.val = 0xB3 || c.val = 0xB9)

/-- Python `str.isdigit`: nonempty and every character a digit. -/

def pyIsDigitStr (s : String) : Bool :=
  s.length != 0 && s.data.all pyIsDigitChar

/-- ASCII digit test used by the strptime format regex. -/

def isAsciiDigit (c : Char) : Bool := ('0' ≤ c) && (c ≤ '9')

/-- Numeric value of an ASCII digit character. -/

def digitVal (c : Char) : Int := Int.ofNat (c.toNat - Char.toNat '0')

/-- Leap-year test of the proleptic Gregorian calendar (as `datetime` uses). -/

def isLeapYear (y : Int) : Bool :=
  (y % 4 = 0 && y % 100 != 0) || y % 400 = 0

/-- Number of days in a month of the proleptic Gregorian calendar. -/

def daysInMonth (y m : Int) : Int :=
  if m = 2 then (if isLeapYear y then 29 else 28)
  else if m = 4 || m = 6 || m = 9 || m = 11 then 30
  else 31

/-- Serial day number of a proleptic Gregorian date (days since 1970-01-01,
the standard days-from-civil computation); used to embed
`timedelta.days` of the difference of two midnight datetimes. -/

def daysFromCivil (y m d : Int) : Int :=
  let y2 := if m ≤ 2 then y - 1 else y
  let era := (if 0 ≤ y2 then y2 else y2 - 399) / 400
  let yoe := y2 - era * 400
  let mp := (m + 9) % 12
  let doy := (153 * mp + 2) / 5 + d - 1
  let doe := yoe * 365 + yoe / 4 - yoe / 100 + doy
  era * 146097 + doe - 719468

/-- Embeds `(end - start).days` for two midnight datetimes produced by
`datetime.strptime(s, "%Y-%m-%d")`. -/

def dtDiffDays (a b : PyDateTime) : Int :=
  daysFromCivil a.year a.month a.day - daysFromCivil b.year b.month b.day

/-- Month field of the `%m` directive: CPython's strptime matches the regex
`1[0-2]|0[1-9]|[1-9]` (ordered alternation). Returns the month and the
remaining characters. -/

def parseMonthField (cs : List Char) : Option (Int × List Char) :=
  match cs with
  | c1 :: c2 :: rest =>
    if c1 = '1' && (c2 = '0' || c2 = '1' || c2 = '2') then
      some (10 + digitVal c2, rest)
    else if c1 = '0' && ('1' ≤ c2 && c2 ≤ '9') then
      some (digitVal c2, rest)
    else if '1' ≤ c1 && c1 ≤ '9' then
      some (digitVal c1, c2 :: rest)
    else Option.none
  | [c1] =>
    if '1' ≤ c1 && c1 ≤ '9' then some (digitVal c1, []) else Option.none
  | [] => Option.none

/-- Day field of the `%d` directive: CPython's strptime matches the regex
`3[01]|[12]\d|0[1-9]|[1-9]` (ordered alternation). -/

def parseDayField (cs : List Char) : Option (Int × List Char) :=
  match cs with
  | c1 :: c2 :: rest =>
    if c1 = '3' && (c2 = '0' || c2 = '1') then
      some (30 + digitVal c2, rest)
    else if (c1 = '1' || c1 = '2') && isAsciiDigit c2 then
      some (10 * digitVal c1 + digitVal c2, rest)
    else if c1 = '0' && ('1' ≤ c2 && c2 ≤ '9') then
      some (digitVal c2, rest)
    else if '1' ≤ c1 && c1 ≤ '9' then
      some (digitVal c1, c2 :: rest)
    else Option.none
  | [c1] =>
    if '1' ≤ c1 && c1 ≤ '9' then some (digitVal c1, []) else Option.none
  | [] => Option.none

/-- Year field of the `%Y` directive: exactly four digit characters
(CPython's regex is four `\d`; we model the ASCII digits — acceptance of
non-ASCII Unicode digits by `\d` is outside the model). -/

def parseYearField (cs : List Char) : Option (Int × List Char) :=
  match cs with
  | a :: b :: c :: d :: rest =>
    if isAsciiDigit a && isAsciiDigit b && isAsciiDigit c && isAsciiDigit d then
      some (1000 * digitVal a + 100 * digitVal b + 10 * digitVal c + digitVal d, rest)
    else Option.none
  | _ => Option.none

/-- Embeds `datetime.strptime(s, "%Y-%m-%d")`: match the format regex against the
whole string, then build the (validated) midnight datetime. `Option.none`
embeds the raised `ValueError`. -/

def strptimeYmd (s : String) : Option PyDateTime :=
  match parseYearField s.data with
  | Option.none => Option.none
  | some (y, rest1) =>
    match rest1 with
    | '-' :: rest2 =>
      match parseMonthField rest2 with
      | Option.none => Option.none
      | some (m, rest3) =>
        match rest3 with
        | '-' :: rest4 =>
          match parseDayField rest4 with
          | some (d, []) =>
            if 1 ≤ y && 1 ≤ d && d ≤ daysInMonth y m then
              some { year := y, month := m, day := d }
            else Option.none
          | _ => Option.none
        | _ => Option.none
    | _ => Option.none

/-- Two ASCII digits, returning their value. -/

def parseTwoDigits (cs : List Char) : Option (Int × List Char) :=
  match cs with
  | a :: b :: rest =>
    if isAsciiDigit a && isAsciiDigit b then
      some (10 * digitVal a + digitVal b, rest)
    else Option.none
  | _ => Option.none

/-- Time-of-day suffix of `datetime.fromisoformat`:
`HH:MM[:SS]` with an optional `±HH:MM` offset (pre-3.11 grammar; fractional
seconds and offset seconds are outside the model — no claim exercises them). -/

def parseIsoTime (cs : List Char) (y m d : Int) : Option PyDateTime :=
  match parseTwoDigits cs with
  | Option.none => Option.none
  | some (hh, rest1) =>
    if hh ≤ 23 then
      match rest1 with
      | ':' :: rest2 =>
        match parseTwoDigits rest2 with
        | Option.none => Option.none
        | some (mi, rest3) =>
          if mi ≤ 59 then
            let core : Int × List Char :=
              match rest3 with
              | ':' :: rest4 =>
                match parseTwoDigits rest4 with
                | some (ss, rest5) => if ss ≤ 59 then (ss, rest5) else (-1, rest4)
                | Option.none => (0, rest3)
              | _ => (0, rest3)
            if core.1 < 0 then Option.none
            else
              match core.2 with
              | [] => some { year := y, month := m, day := d, hour := hh,
                             minute := mi, second := core.1 }
              | sign :: rest6 =>
                if sign = '+' || sign = '-' then
                  match parseTwoDigits rest6 with
                  | some (oh, ':' :: rest7) =>
                    match parseTwoDigits rest7 with
                    | some (om, []) =>
                      let mins := oh * 60 + om
                      some { year := y, month := m, day := d, hour := hh,
                             minute := mi, second := core.1,
                             tzOffsetMinutes :=
                               some (if sign = '-' then -mins else mins) }
                    | _ => Option.none
                  | _ => Option.none
                else Option.none
          else Option.none
      | _ => Option.none
    else Option.none

/-- Embeds `datetime.fromisoformat` on a string (pre-3.11 grammar, as the library's
own `.replace("Z", "+00:00")` work-around presumes): a strict `YYYY-MM-DD`
date, optionally followed by a one-character separator and a time-of-day
suffix. -/

def isoparse (s : String) : Option PyDateTime :=
  match s.data with
  | y1 :: y2 :: y3 :: y4 :: '-' :: m1 :: m2 :: '-' :: d1 :: d2 :: rest =>
    if isAsciiDigit y1 && isAsciiDigit y2 && isAsciiDigit y3 && isAsciiDigit y4 &&
       isAsciiDigit m1 && isAsciiDigit m2 && isAsciiDigit d1 && isAsciiDigit d2 then
      let y := 1000 * digitVal y1 + 100 * digitVal y2 + 10 * digitVal y3 + digitVal y4
      let m := 10 * digitVal m1 + digitVal m2
      let d := 10 * digitVal d1 + digitVal d2
      if 1 ≤ y && 1 ≤ m && m ≤ 12 && 1 ≤ d && d ≤ daysInMonth y m then
        match rest with
        | [] => some { year := y, month := m, day := d }
        | _ :: timePart => parseIsoTime timePart y m d
      else Option.none
    else Option.none
  | _ => Option.none

/-- The exception kinds the embedded code can raise. -/

inductive PyErr where
  | typeError
  | valueError (msg : String)
  | keyError
  | attributeError
  | indexError
deriving Repr, DecidableEq

/-- Embeds `datetime.fromisoformat(v)` on an arbitrary value: a non-string argument
raises `TypeError`; a string that does not match the grammar raises
`ValueError`. -/

def pyFromIsoformat (v : PyVal) : Except PyErr PyDateTime :=
  match v with
  | .str s =>
    match isoparse s with
    | some dtv => .ok dtv
    | Option.none => .error (.valueError "Invalid isoformat string")
  | _ => .error .typeError

/-- Embeds `v[k]` subscription with a string key: dicts look up (raising `KeyError`
when absent); every other type raises `TypeError`. -/

def pySubscript (v : PyVal) (k : String) : Except PyErr PyVal :=
  match v with
  | .dict es =>
    match dictGet es k with
    | some w => .ok w
    | Option.none => .error .keyError
  | _ => .error .typeError

/-- Embeds `v.get(k, dflt)`: only dicts have `.get`; every other type raises
`AttributeError`. -/

def pyGetAttrGet (v : PyVal) (k : String) (dflt : PyVal) : Except PyErr PyVal :=
  match v with
  | .dict es => .ok (dictGetD es k dflt)
  | _ => .error .attributeError

/-- Embeds `v.items()`: only dicts have `.items`; every other type raises
`AttributeError`. -/

def pyItems (v : PyVal) : Except PyErr PyDict :=
  match v with
  | .dict es => .ok es
  | _ => .error .attributeError

/-- Python `str.lower` (modelled by per-character lowering, adequate for the
ASCII category tags the library compares against). -/

def pyLower (s : String) : String := String.mk (s.data.map Char.toLower)

namespace Hebcal

inductive EventType where
  | omer
  | holiday
  | havdalah
  | candles
  | roshchodesh
  | shabbat
  | parashat
  | zmanim
  | unknown
deriving Repr, DecidableEq

/-- Embeds `EventType(category) if category in EventType._value2member_map_ else
EventType.UNKNOWN`. -/

def eventTypeOf (s : String) : EventType :=
  if s = "omer" then .omer
  else if s = "holiday" then .holiday
  else if s = "havdalah" then .havdalah
  else if s = "candles" then .candles
  else if s = "roshchodesh" then .roshchodesh
  else if s = "shabbat" then .shabbat
  else if s = "parashat" then .parashat
  else if s = "zmanim" then .zmanim
  else .unknown

/-- Embeds `OmerInfo` dataclass (fields carry whatever values the JSON held). -/

structure OmerInfo where
  count_he : PyVal
  count_en : PyVal
  sefira_he : PyVal
  sefira_translit : PyVal
  sefira_en : PyVal
deriving Repr

/-- Embeds `HolidayInfo` dataclass. -/

structure HolidayInfo where
  yomtov : PyVal
  subcategory : PyVal
  memo : PyVal
  leyning : PyVal
deriving Repr

/-- Embeds `ParashatInfo` dataclass (`aliyot` is `Option.none` when the Python field
is `None`, `some` of the digit-keyed sub-dict otherwise). -/

structure ParashatInfo where
  torah : PyVal := .none
  haftarah : PyVal := .none
  maftir : PyVal := .none
  aliyot : Option PyDict := Option.none
  triennial : PyVal := .none
deriving Repr

/-- Embeds `ShabbatInfo` dataclass. -/

structure ShabbatInfo where
  torah : PyVal
  haftarah : PyVal
  maftir : PyVal
  leyning : PyVal
deriving Repr

/-- Embeds `RoshChodeshInfo` dataclass (`portions` always receives the — possibly
empty — digit-keyed comprehension dict). -/

structure RoshChodeshInfo where
  link : PyVal
  torah : PyVal
  haftarah : PyVal
  maftir : PyVal
  portions : PyDict
  memo : PyVal
deriving Repr

/-- Embeds `ZmanimEvent` dataclass as built inside `Event.from_dict`. -/

structure ZmanimEvent where
  title : PyVal
  date : PyDateTime
  hebrew : PyVal
  original_title : PyVal
  memo : PyVal
  subcat : PyVal
deriving Repr

/-- Embeds `HavdalahInfo` dataclass. -/

structure HavdalahInfo where
  time : PyDateTime
  memo : PyVal
deriving Repr

/-- Embeds `CandleInfo` dataclass. -/

structure CandleInfo where
  time : PyDateTime
  memo : PyVal
deriving Repr

/-- Embeds `ParashatInfo.from_dict`: falsy input yields the all-default record;
otherwise the digit-keyed entries become `aliyot` (or `None` when empty) and
the named entries are read with `.get` (raising `AttributeError` on a truthy
non-dict, as the comprehension's `.items()` does in the source). -/

def ParashatInfo.fromDict (data : PyVal) : Except PyErr ParashatInfo :=
  if pyTruthy data then do
    let items ← pyItems data
    let aliyot := items.filter (fun kv => pyIsDigitStr kv.1)
    let torah ← pyGetAttrGet data "torah" .none
    let haftarah ← pyGetAttrGet data "haftarah" .none
    let maftir ← pyGetAttrGet data "maftir" .none
    let triennial ← pyGetAttrGet data "triennial" .none
    .ok { torah := torah, haftarah := haftarah, maftir := maftir,
          aliyot := if aliyot.isEmpty then Option.none else some aliyot,
          triennial := triennial }
  else .ok {}

/-- The `Event` dataclass: common fields plus one optional record per
category. -/

structure Event where
  title : PyVal
  date : Option PyDateTime
  type : EventType
  hebrew : PyVal
  link : PyVal
  original_title : PyVal
  omer : Option OmerInfo
  zmanim : Option ZmanimEvent
  holiday : Option HolidayInfo
  parashat : Option ParashatInfo
  havdalah : Option HavdalahInfo
  candle : Option CandleInfo
  shabbat : Option ShabbatInfo
  roshchodesh : Option RoshChodeshInfo
deriving Repr

/-- The omer block of `Event.from_dict`: when an `omer` key is present, each
constructor argument re-subscripts `data["omer"]["count"]` /
`data["omer"]["sefira"]` (raising `KeyError` / `TypeError` /
`AttributeError` exactly where the source expression does, in source
argument order). -/

def omerBlock (data : PyDict) : Except PyErr (Option OmerInfo) :=
  match dictGet data "omer" with
  | some omer => do
    let count_he ← do
      let c ← pySubscript omer "count"
      pyGetAttrGet c "he" (.str "")
    let count_en ← do
      let c ← pySubscript omer "count"
      pyGetAttrGet c "en" (.str "")
    let sefira_he ← do
      let sf ← pySubscript omer "sefira"
      pyGetAttrGet sf "he" (.str "")
    let sefira_translit ← do
      let sf ← pySubscript omer "sefira"
      pyGetAttrGet sf "translit" (.str "")
    let sefira_en ← do
      let sf ← pySubscript omer "sefira"
      pyGetAttrGet sf "en" (.str "")
    .ok (some { count_he := count_he, count_en := count_en,
                sefira_he := sefira_he, sefira_translit := sefira_translit,
                sefira_en := sefira_en })
  | Option.none => .ok Option.none

/-- The holiday block: populated exactly when `data.get("category") ==
"holiday"` (case-sensitive). -/

def holidayBlock (data : PyDict) : Option HolidayInfo :=
  if pyEqStr (dictGet data "category") "holiday" then
    some { yomtov := dictGetD data "yomtov" (.bool false),
           subcategory := dictGetD data "subcat" .none,
           memo := dictGetD data "memo" .none,
           leyning := dictGetD data "leyning" .none }
  else Option.none

/-- The parashat block: `ParashatInfo.from_dict(data.get("leyning", {}))`
when the category is exactly `"parashat"`. -/

def parashatBlock (data : PyDict) : Except PyErr (Option ParashatInfo) :=
  if pyEqStr (dictGet data "category") "parashat" then do
    let p ← ParashatInfo.fromDict (dictGetD data "leyning" (.dict []))
    .ok (some p)
  else .ok Option.none

/-- Construction of a `ShabbatInfo` from `data.get("leyning", {})` (shared by
both shabbat blocks of the source; raises `AttributeError` when the value
under `leyning` is a truthy non-dict). -/

def shabbatInfoOf (data : PyDict) : Except PyErr ShabbatInfo := do
  let leyning := dictGetD data "leyning" (.dict [])
  let torah ← pyGetAttrGet leyning "torah" .none
  let haftarah ← pyGetAttrGet leyning "haftarah" .none
  let maftir ← pyGetAttrGet leyning "maftir" .none
  .ok { torah := torah, haftarah := haftarah, maftir := maftir,
        leyning := leyning }

/-- The first (immediately overwritten) shabbat block of the source: only its
exceptions survive. -/

def shabbatBlockOne (data : PyDict) : Except PyErr Unit :=
  if pyEqStr (dictGet data "category") "shabbat" then do
    let _ ← shabbatInfoOf data
    .ok ()
  else .ok ()

/-- The zmanim block: parses `data.get("date")` with
`datetime.fromisoformat`, which raises `TypeError` when the key is absent
and `ValueError` on a malformed string. -/

def zmanimBlock (data : PyDict) : Except PyErr (Option ZmanimEvent) :=
  if pyEqStr (dictGet data "category") "zmanim" then do
    let d ← pyFromIsoformat (dictGetD data "date" .none)
    .ok (some { title := dictGetD data "title" .none, date := d,
                hebrew := dictGetD data "hebrew" .none,
                original_title := dictGetD data "title_orig" .none,
                memo := dictGetD data "memo" .none,
                subcat := dictGetD data "subcat" .none })
  else .ok Option.none

/-- The havdalah block: same non-defensive `fromisoformat` on
`data.get("date")`. -/

def havdalahBlock (data : PyDict) : Except PyErr (Option HavdalahInfo) :=
  if pyEqStr (dictGet data "category") "havdalah" then do
    let d ← pyFromIsoformat (dictGetD data "date" .none)
    .ok (some { time := d, memo := dictGetD data "memo" .none })
  else .ok Option.none

/-- The candles block: same non-defensive `fromisoformat` on
`data.get("date")`. -/

def candleBlock (data : PyDict) : Except PyErr (Option CandleInfo) :=
  if pyEqStr (dictGet data "category") "candles" then do
    let d ← pyFromIsoformat (dictGetD data "date" .none)
    .ok (some { time := d, memo := dictGetD data "memo" .none })
  else .ok Option.none

/-- The second shabbat block (the one whose value survives): populated when
the category is `"shabbat"` or `"parashat"` or a `leyning` key is present. -/

def shabbatBlockTwo (data : PyDict) : Except PyErr (Option ShabbatInfo) :=
  if pyEqStr (dictGet data "category") "shabbat" ||
     pyEqStr (dictGet data "category") "parashat" ||
     dictContains data "leyning" then do
    let s ← shabbatInfoOf data
    .ok (some s)
  else .ok Option.none

/-- The rosh-chodesh block: populated when the category is `"roshchodesh"`
or `"rosh chodesh"`; field evaluation follows source argument order. -/

def roshChodeshBlock (data : PyDict) : Except PyErr (Option RoshChodeshInfo) :=
  if pyEqStr (dictGet data "category") "roshchodesh" ||
     pyEqStr (dictGet data "category") "rosh chodesh" then do
    let leyning := dictGetD data "leyning" (.dict [])
    let torah ← pyGetAttrGet leyning "torah" .none
    let haftarah ← pyGetAttrGet leyning "haftarah" .none
    let maftir ← pyGetAttrGet leyning "maftir" .none
    let items ← pyItems leyning
    let portions := items.filter (fun kv => pyIsDigitStr kv.1)
    .ok (some { link := dictGetD data "link" .none, torah := torah,
                haftarah := haftarah, maftir := maftir,
                portions := portions, memo := dictGetD data "memo" .none })
  else .ok Option.none

/-- The defensive date parse at the end of `Event.from_dict`: try
`fromisoformat` on the string with `"Z"` replaced by `"+00:00"`, then plain
`strptime("%Y-%m-%d")`; every exception (including the `AttributeError` /
`TypeError` of a non-string value) is swallowed, leaving the date absent. -/

def parseEventDate (data : PyDict) : Option PyDateTime :=
  match dictGet data "date" with
  | Option.none => Option.none
  | some v =>
    match v with
    | .str s =>
      match isoparse (s.replace "Z" "+00:00") with
      | some dtv => some dtv
      | Option.none => strptimeYmd s
    | _ => Option.none

/-- Embeds `data.get("category", "").lower()`: raises AttributeError when the stored
category value is not a string. -/

def categoryLower (data : PyDict) : Except PyErr String :=
  match dictGetD data "category" (.str "") with
  | .str s => .ok (pyLower s)
  | _ => .error .attributeError

/-- Embeds `Event.from_dict`, block for block in source statement order; any raised
exception aborts the whole parse. -/

def Event.fromDict (data : PyDict) : Except PyErr Event := do
  let omerInfo ← omerBlock data
  let holidayInfo := holidayBlock data
  let parashatInfo ← parashatBlock data
  let _ ← shabbatBlockOne data
  let zmanimInfo ← zmanimBlock data
  let havdalahInfo ← havdalahBlock data
  let candleInfo ← candleBlock data
  let shabbatInfo ← shabbatBlockTwo data
  let roshchodeshInfo ← roshChodeshBlock data
  let eventDate := parseEventDate data
  let category ← categoryLower data
  let eventType := eventTypeOf category
  .ok { title := dictGetD data "title" (.str ""), date := eventDate,
        type := eventType,
        hebrew := dictGetD data "hebrew" .none,
        link := dictGetD data "link" .none,
        original_title := dictGetD data "title_orig" .none,
        omer := omerInfo, zmanim := zmanimInfo, holiday := holidayInfo,
        parashat := parashatInfo, havdalah := havdalahInfo,
        candle := candleInfo, shabbat := shabbatInfo,
        roshchodesh := roshchodeshInfo }

inductive DtInput where
  | str (s : String)
  | datetime (d : PyDateTime)
  | date (y m d : Int)
deriving Repr, DecidableEq

/-- Python truthiness of an optional date argument (`if start:` etc.):
`None` and the empty string are falsy, every `datetime`/`date` is truthy. -/

def dtInputTruthy : Option DtInput → Bool
  | Option.none => false
  | some (.str s) => s.length != 0
  | some _ => true

/-- Zero-padded decimal rendering for `strftime("%Y-%m-%d")`. -/

def padNum (width : Nat) (n : Int) : String :=
  let s := toString n.natAbs
  let pad := String.mk (List.replicate (width - s.length) '0')
  pad ++ s

/-- Embeds `strftime("%Y-%m-%d")` of a date/datetime value (years of the claims are
four-digit, where the zero-padding is exact). -/

def fmtYmd (y m d : Int) : String :=
  padNum 4 y ++ "-" ++ padNum 2 m ++ "-" ++ padNum 2 d

/-- Python truthiness of an optional value. -/

def optTruthy : Option PyVal → Bool
  | Option.none => false
  | some v => pyTruthy v

/-- An optional Python value as the value itself (`None` when absent). -/

def optVal : Option PyVal → PyVal
  | Option.none => .none
  | some v => v

/-- Embeds `isinstance(v, int)` (Python `bool` is a subclass of `int`). -/

def pyIsIntInstance : PyVal → Bool
  | .int _ => true
  | .bool _ => true
  | _ => false

/-- Numeric value of an int-like Python value. -/

def pyIntLike : PyVal → Int
  | .int n => n
  | .bool b => if b then 1 else 0
  | _ => 0

/-- Python `int(v)`: ints and bools pass through, strings are parsed as an
optionally signed ASCII-decimal numeral (other accepted spellings —
surrounding whitespace, underscores, non-ASCII digits — are outside the
model), anything else raises. -/

def pyIntOfVal : PyVal → Except PyErr Int
  | .int n => .ok n
  | .bool b => .ok (if b then 1 else 0)
  | .str s =>
    let core : List Char → Option Int := fun cs =>
      if cs ≠ [] && cs.all isAsciiDigit then
        some (cs.foldl (fun acc c => 10 * acc + digitVal c) 0)
      else Option.none
    match s.data with
    | '-' :: rest =>
      match core rest with
      | some n => .ok (-n)
      | Option.none => .error (.valueError "invalid literal for int")
    | '+' :: rest =>
      match core rest with
      | some n => .ok n
      | Option.none => .error (.valueError "invalid literal for int")
    | cs =>
      match core cs with
      | some n => .ok n
      | Option.none => .error (.valueError "invalid literal for int")
  | _ => .error .typeError

/-- Modelled from the spec: `config.py` (imported as `from .config import
BASE_URL, DEFAULT_PARAMS` by every endpoint module) is not among the source
files; spec section 3 fixes the default parameter mapping as
format `json`, version `1`, which `test_config.py` pins as the dict
`v = "1", cfg = "json"`. -/

def defaultParams : PyDict := [("v", .str "1"), ("cfg", .str "json")]

/-- The generic `_merge_params` pattern shared by calendar, shabbat, leyning,
zmanim and converter: copy the stored parameters, then admit each extra key
only if it is in the endpoint's allow-list. -/

def mergeParams (base : PyDict) (allowed : List String) (extra : PyDict) :
    Except PyErr PyDict :=
  match extra with
  | [] => .ok base
  | (k, v) :: rest =>
    if allowed.contains k then mergeParams (dictSet base k v) allowed rest
    else .error (.valueError "Invalid extra parameter")

/-- Embeds `_ALLOWED_PARAMS` of calendar.py. -/

def calendarAllowed : List String :=
  ["v", "cfg", "year", "yt", "month", "ny", "start", "end",
   "geonameid", "zip", "latitude", "longitude", "tzid", "city",
   "maj", "yto", "min", "nx", "mf", "ss", "mod", "s", "leyning",
   "D", "d", "o", "ykk", "molad", "yzkr", "mvch",
   "i", "c", "b", "m", "M",
   "F", "dw", "yyomi", "yys", "myomi", "nyomi",
   "dty", "dps", "dr1", "dr3", "dsm", "dksa", "ahsy",
   "dcc", "dshl", "dpa", "hdp", "lg"]

/-- Embeds `Calendar._format_datetime`: a `datetime`/`date` value is rendered as
`YYYY-MM-DD` text, but the string branch returns the value of
`datetime.strptime` — a datetime object, not the text. -/

def Calendar.formatDatetime (dt : DtInput) : Except PyErr PyVal :=
  match dt with
  | .datetime d => .ok (.str (fmtYmd d.year d.month d.day))
  | .date y m dd => .ok (.str (fmtYmd y m dd))
  | .str s =>
    match strptimeYmd s with
    | some d => .ok (.dt d)
    | Option.none => .error (.valueError "Invalid datetime format for parameter start or end")

/-- Embeds `Calendar._validate_date_params`. -/

def Calendar.validateDateParams (start finish : Option DtInput)
    (year : Option PyVal) (yt : Option PyVal) (month : Option PyVal)
    (ny : Option Int) : Except PyErr PyDict := do
  if year.isSome && (dtInputTruthy start || dtInputTruthy finish) then
    .error (.valueError "Cannot specify both year and start/end. Choose one method.")
  else
    match year with
    | some yv => do
      let params : PyDict := [("year", yv)]
      let params ←
        if optTruthy yt then
          if pyEqStr yt "G" || pyEqStr yt "H" then
            .ok (dictSet params "yt" (optVal yt))
          else .error (.valueError "yt must be G or H")
        else .ok params
      let params ←
        if optTruthy month then do
          if pyEqStr month "x" then
            .ok (dictSet params "month" (optVal month))
          else do
            let mi ← pyIntOfVal (optVal month)
            if 1 ≤ mi && mi ≤ 12 then
              .ok (dictSet params "month" (optVal month))
            else .error (.valueError "month must be x or 1-12")
        else .ok params
      let params ←
        match ny with
        | some n =>
          if n < 1 then .error (.valueError "ny must be at least 1")
          else .ok (dictSet params "ny" (.int n))
        | Option.none => .ok params
      .ok params
    | Option.none =>
      if dtInputTruthy start && dtInputTruthy finish then do
        let s ← Calendar.formatDatetime ((start.getD (.str "")))
        let e ← Calendar.formatDatetime ((finish.getD (.str "")))
        .ok [("start", s), ("end", e)]
      else
        .error (.valueError "Provide either start and end (str, date, datetime) or a year.")

/-- The geonameid check of `Calendar._validate_location_params`: a supplied
geonameid that is not a positive int raises; the returned Bool records
whether the form was supplied. -/

def Calendar.geoCheck (geonameid : Option PyVal) : Except PyErr Bool :=
  match geonameid with
  | some g =>
    if !(pyIsIntInstance g) || pyIntLike g ≤ 0 then
      .error (.valueError "geonameid must be a positive integer")
    else .ok true
  | Option.none => .ok false

/-- The zip check of `Calendar._validate_location_params`: a supplied zip
that is not a string of exactly five `str.isdigit` characters raises. -/

def Calendar.zipCheck (zip_code : Option PyVal) : Except PyErr Bool :=
  match zip_code with
  | some z =>
    match z with
    | .str s =>
      if pyIsDigitStr s && s.length = 5 then .ok true
      else .error (.valueError "zip must be a 5-digit string")
    | _ => .error (.valueError "zip must be a 5-digit string")
  | Option.none => .ok false

/-- The lat/long/tzid check of `Calendar._validate_location_params`: the
triple counts as supplied when ANY of the three is truthy, and then all
three must be non-`None`. -/

def Calendar.latlonCheck (latitude longitude tzid : Option PyVal) :
    Except PyErr Bool :=
  if optTruthy latitude || optTruthy longitude || optTruthy tzid then
    if latitude.isNone || longitude.isNone || tzid.isNone then
      .error (.valueError "latitude, longitude, and tzid must all be provided together")
    else .ok true
  else .ok false

/-- The return cascade of `Calendar._validate_location_params`: the mapping
of the FIRST non-`None` form in source order (the all-`None` fall-through is
the function's implicit `None` return). -/

def Calendar.locationReturn (geonameid zip_code latitude longitude
    tzid city : Option PyVal) : Except PyErr (Option PyDict) :=
  match geonameid with
  | some g => .ok (some [("geonameid", g)])
  | Option.none =>
    match zip_code with
    | some z => .ok (some [("zip", z)])
    | Option.none =>
      match latitude with
      | some lat =>
        .ok (some [("latitude", lat), ("longitude", optVal longitude),
                   ("tzid", optVal tzid)])
      | Option.none =>
        match city with
        | some c => .ok (some [("city", c)])
        | Option.none => .ok Option.none

/-- Embeds `Calendar._validate_location_params`: the three form checks, the
exactly-one-form count rule, then the return cascade. -/

def Calendar.validateLocationParams (geonameid zip_code latitude longitude
    tzid city : Option PyVal) : Except PyErr (Option PyDict) := do
  let geoProvided ← Calendar.geoCheck geonameid
  let zipProvided ← Calendar.zipCheck zip_code
  let latlonProvided ← Calendar.latlonCheck latitude longitude tzid
  let cityProvided := city.isSome
  let count := (if geoProvided then 1 else 0) + (if zipProvided then 1 else 0) +
    (if latlonProvided then 1 else 0) + (if cityProvided then 1 else 0)
  if count = 0 then
    .error (.valueError "You must provide one location parameter")
  else if count > 1 then
    .error (.valueError "Only one location parameter is allowed")
  else
    Calendar.locationReturn geonameid zip_code latitude longitude tzid city

structure CalendarArgs where
  start : Option DtInput := Option.none
  «end» : Option DtInput := Option.none
  year : Option PyVal := Option.none
  year_type : Option PyVal := Option.none
  month : Option PyVal := Option.none
  number_of_years : Option Int := Option.none
  geonameid : Option PyVal := Option.none
  zip_code : Option PyVal := Option.none
  latitude : Option PyVal := Option.none
  longitude : Option PyVal := Option.none
  timezone_id : Option PyVal := Option.none
  city_name : Option PyVal := Option.none
  israel_holidays_and_torah_readings : Option Bool := Option.none
  major_holidays : Bool := false
  yom_tov_only : Bool := false
  minor_holidays : Bool := false
  rosh_chodesh : Bool := false
  minor_fasts : Bool := false
  special_shabbatot : Bool := false
  modern_holidays : Bool := false
  weekly_torah_portion : Bool := false
  include_leyning : Bool := false
  hebrew_date_for_events : Bool := false
  hebrew_date_for_range : Bool := false
  omer_days : Bool := false
  yom_kippur_katan : Bool := false
  molad_dates : Bool := false
  yizkor_dates : Bool := false
  shabbat_mevarchim : Bool := false
  candle_lighting_times : Bool := false
  candle_lighting_minutes_before_sunset : Option Int := Option.none
  havdalah_minutes_after_sunset : Option Int := Option.none
  havdalah_at_nightfall : Bool := false
  daf_yomi : Bool := false
  daf_a_week : Bool := false
  yerushalmi_yomi_vilna : Bool := false
  yerushalmi_yomi_schottenstein : Bool := false
  mishna_yomi : Bool := false
  nach_yomi : Bool := false
  tanakh_yomi : Bool := false
  daily_tehillim : Bool := false
  daily_rambam_1_chapter : Bool := false
  daily_rambam_3_chapters : Bool := false
  sefer_ha_mitzvot : Bool := false
  kitzur_shulchan_arukh_yomi : Bool := false
  arukh_ha_shulchan_yomi : Bool := false
  sefer_chofetz_chaim : Bool := false
  shemirat_ha_lashon : Bool := false
  pirkei_avot_shabbatot : Bool := false
  holiday_description_only : Bool := false
  language : Option PyVal := Option.none

/-- The `event_flags` dict literal of `Calendar._parse_params`, in source
order. -/

def calendarEventFlags (a : CalendarArgs) : List (String × PyVal) :=
  [("maj", .bool a.major_holidays), ("yto", .bool a.yom_tov_only),
   ("min", .bool a.minor_holidays), ("nx", .bool a.rosh_chodesh),
   ("mf", .bool a.minor_fasts), ("ss", .bool a.special_shabbatot),
   ("mod", .bool a.modern_holidays), ("s", .bool a.weekly_torah_portion),
   ("leyning", .bool a.include_leyning), ("D", .bool a.hebrew_date_for_events),
   ("d", .bool a.hebrew_date_for_range), ("o", .bool a.omer_days),
   ("ykk", .bool a.yom_kippur_katan), ("molad", .bool a.molad_dates),
   ("yzkr", .bool a.yizkor_dates), ("mvch", .bool a.shabbat_mevarchim),
   ("c", .bool a.candle_lighting_times), ("F", .bool a.daf_yomi),
   ("dw", .bool a.daf_a_week), ("yyomi", .bool a.yerushalmi_yomi_vilna),
   ("yys", .bool a.yerushalmi_yomi_schottenstein),
   ("myomi", .bool a.mishna_yomi), ("nyomi", .bool a.nach_yomi),
   ("dty", .bool a.tanakh_yomi), ("dps", .bool a.daily_tehillim),
   ("dr1", .bool a.daily_rambam_1_chapter),
   ("dr3", .bool a.daily_rambam_3_chapters),
   ("dsm", .bool a.sefer_ha_mitzvot),
   ("dksa", .bool a.kitzur_shulchan_arukh_yomi),
   ("ahsy", .bool a.arukh_ha_shulchan_yomi),
   ("dcc", .bool a.sefer_chofetz_chaim),
   ("dshl", .bool a.shemirat_ha_lashon),
   ("dpa", .bool a.pirkei_avot_shabbatot),
   ("hdp", .bool a.holiday_description_only),
   ("lg", optVal a.language)]

/-- One iteration of the flag loop: a true bool maps to the literal `"on"`,
values equal to `None` or `False` (including `0`) are skipped, everything
else is passed through. -/

def flagStep (params : PyDict) (kv : String × PyVal) : PyDict :=
  match kv.2 with
  | .bool true => dictSet params kv.1 (.str "on")
  | .bool false => params
  | .none => params
  | .int n => if n = 0 then params else dictSet params kv.1 (.int n)
  | .float q => if q = 0 then params else dictSet params kv.1 (.float q)
  | v => dictSet params kv.1 v

/-- Embeds `Calendar._parse_params`: date validation, location validation (a `None`
return from the location validator would make `params.update` raise
`TypeError`), the Israel flag, the candle/havdalah numeric options, then the
flag loop. -/

def Calendar.parseParams (a : CalendarArgs) : Except PyErr PyDict := do
  let params ← Calendar.validateDateParams a.start a.«end» a.year a.year_type
    a.month a.number_of_years
  let locv ← Calendar.validateLocationParams a.geonameid a.zip_code a.latitude
    a.longitude a.timezone_id a.city_name
  match locv with
  | Option.none => .error .typeError
  | some es =>
    let params := dictUpdate params es
    let params :=
      match a.israel_holidays_and_torah_readings with
      | some b => dictSet params "i" (.str (if b then "on" else "off"))
      | Option.none => params
    let params ←
      match a.candle_lighting_minutes_before_sunset with
      | some n =>
        if n < 0 then
          .error (.valueError "candle_lighting_minutes_before_sunset must be nonnegative")
        else .ok (dictSet params "b" (.int n))
      | Option.none => .ok params
    let params ←
      match a.havdalah_minutes_after_sunset with
      | some n =>
        if n < 0 then
          .error (.valueError "havdalah_minutes_after_sunset must be nonnegative")
        else .ok (dictSet params "m" (.int n))
      | Option.none => .ok params
    let params :=
      if a.havdalah_at_nightfall then dictSet params "M" (.str "on") else params
    .ok ((calendarEventFlags a).foldl flagStep params)

/-- Embeds `Calendar._get_calendar_sync` up to the transport boundary: merge the
stored defaults with the extra parameters and record the single `fetch_sync`
invocation (the returned list holds one entry per transport call). -/

def Calendar.getCalendarSyncCalls (extra : PyDict) : Except PyErr (List PyDict) := do
  let params ← mergeParams defaultParams calendarAllowed extra
  .ok [params]

/-- Embeds `Calendar.get_events` up to the transport boundary: parse the keyword
arguments and hand the mapping to the sync fetch path. -/

def Calendar.getEventsCalls (a : CalendarArgs) : Except PyErr (List PyDict) := do
  let params ← Calendar.parseParams a
  Calendar.getCalendarSyncCalls params

def leyningAllowed : List String := ["date", "start", "end", "i", "triennial"]

/-- Embeds `_ALLOWED_PARAMS` of zmanim.py. -/

def zmanimAllowed : List String :=
  ["date", "start", "end", "geonameid", "latitude", "longitude", "sec", "elevation"]

/-- Embeds `_ALLOWED_PARAMS` of shabat.py. -/

def shabbatAllowed : List String :=
  ["b", "M", "m", "leyning", "gy", "gm", "gd", "hdp", "lg",
   "geonameid", "latitude", "longitude"]

/-- Embeds `_ALLOWED_PARAMS` of converter.py. -/

def converterAllowed : List String :=
  ["cfg", "date", "start", "end", "g2h", "h2g", "strict", "gs",
   "gy", "gm", "gd", "hy", "hm", "hd", "ndays", "lg", "callback"]

/-- The explicitly listed `_ALLOWED_PARAMS` of yahrzeit.py (the numbered
event fields are admitted by a separate first-character test). -/

def yahrzeitAllowed : List String :=
  ["cfg", "v", "years", "hebdate", "yizkor", "i", "start", "end", "hdp"]

/-- Embeds `Leyning._format_datetime`: unlike the calendar variant, the string
branch validates with strptime and returns the original text. -/

def Leyning.formatDatetime (dt : DtInput) : Except PyErr String :=
  match dt with
  | .datetime d => .ok (fmtYmd d.year d.month d.day)
  | .date y m dd => .ok (fmtYmd y m dd)
  | .str s =>
    if (strptimeYmd s).isSome then .ok s
    else .error (.valueError "Invalid datetime format for parameter start or end")

/-- The truncation warning text logged by the leyning and zmanim date
validators. -/

def rangeWarning : String := "Date range > 180 days. Results will be truncated by the API."

/-- Embeds `Leyning._validate_dates`: single truthy date wins; otherwise both start
and end must be truthy (one missing gets the same error as both missing);
a span whose day difference exceeds 180 only logs a warning. The second
component collects the messages sent to the logging collaborator. -/

def Leyning.validateDates (date start finish : Option DtInput) :
    Except PyErr (PyDict × List String) :=
  if dtInputTruthy date then do
    let d ← Leyning.formatDatetime (date.getD (.str ""))
    .ok ([("date", .str d)], [])
  else if !(dtInputTruthy start) || !(dtInputTruthy finish) then
    .error (.valueError "You must provide either a single date or both start and end")
  else do
    let s ← Leyning.formatDatetime (start.getD (.str ""))
    let e ← Leyning.formatDatetime (finish.getD (.str ""))
    match strptimeYmd e, strptimeYmd s with
    | some ed, some sd =>
      let warns := if dtDiffDays ed sd > 180 then [rangeWarning] else []
      .ok ([("start", .str s), ("end", .str e)], warns)
    | _, _ => .error (.valueError "time data does not match format")

/-- Embeds `Leyning._prepare_params`: dates, the Israel and triennial toggles, then
the allow-list merge over the stored defaults. -/

def Leyning.prepareParams (date start finish : Option DtInput)
    (diaspora triennial : Bool) : Except PyErr (PyDict × List String) := do
  let (params, warns) ← Leyning.validateDates date start finish
  let params := dictSet params "i" (.str (if diaspora then "on" else "off"))
  let params := dictSet params "triennial" (.str (if triennial then "on" else "off"))
  let merged ← mergeParams defaultParams leyningAllowed params
  .ok (merged, warns)

/-- Embeds `Zmanim._format_datetime`: datetime or validated string only; a plain
`date` falls into the `TypeError` branch. -/

def Zmanim.formatDatetime (dt : DtInput) : Except PyErr String :=
  match dt with
  | .datetime d => .ok (fmtYmd d.year d.month d.day)
  | .str s =>
    if (strptimeYmd s).isSome then .ok s
    else .error (.valueError "Invalid datetime format, must be YYYY-MM-DD")
  | .date _ _ _ => .error .typeError

/-- Embeds `Zmanim._validate_dates`: same shape as the leyning validator. -/

def Zmanim.validateDates (date start finish : Option DtInput) :
    Except PyErr (PyDict × List String) :=
  if dtInputTruthy date then do
    let d ← Zmanim.formatDatetime (date.getD (.str ""))
    .ok ([("date", .str d)], [])
  else if !(dtInputTruthy start) || !(dtInputTruthy finish) then
    .error (.valueError "You must provide either a single date or both start and end")
  else do
    let s ← Zmanim.formatDatetime (start.getD (.str ""))
    let e ← Zmanim.formatDatetime (finish.getD (.str ""))
    match strptimeYmd s, strptimeYmd e with
    | some sd, some ed =>
      let warns := if dtDiffDays ed sd > 180 then [rangeWarning] else []
      .ok ([("start", .str s), ("end", .str e)], warns)
    | _, _ => .error (.valueError "time data does not match format")

/-- Embeds `Zmanim._prepare_params`: dates, then geonameid pass-through, the
latitude/longitude pairing rule (the only location rule this endpoint has),
the `sec`/`elevation` toggles, and the allow-list merge. -/

def Zmanim.prepareParams (date start finish : Option DtInput)
    (geonameid latitude longitude : Option PyVal) (sec elevation : Bool) :
    Except PyErr (PyDict × List String) := do
  let (params, warns) ← Zmanim.validateDates date start finish
  let params :=
    match geonameid with
    | some g => dictSet params "geonameid" g
    | Option.none => params
  let params ←
    if latitude.isSome && longitude.isSome then
      .ok (dictSet (dictSet params "latitude" (optVal latitude)) "longitude"
        (optVal longitude))
    else if latitude.isSome || longitude.isSome then
      .error (.valueError "Both latitude and longitude must be provided together")
    else .ok params
  let params := if sec then dictSet params "sec" (.int 1) else params
  let params := if elevation then dictSet params "elevation" (.int 1) else params
  let merged ← mergeParams defaultParams zmanimAllowed params
  .ok (merged, warns)

/-- Embeds `Yahrzeit.__init__`: copy of the defaults, then `cfg = "json"` and
`v = "yahrzeit"`. -/

def yahrzeitInitParams : PyDict :=
  dictSet (dictSet defaultParams "cfg" (.str "json")) "v" (.str "yahrzeit")

/-- Embeds `Yahrzeit._merge_params`: an extra key is admitted when it is in the
allow-list, or — evaluated only otherwise — when its FIRST character is one
of `y`,`m`,`d`,`s`,`t`,`n` (`k[0]` on an empty key raises `IndexError`). -/

def Yahrzeit.mergeParams (base : PyDict) (extra : PyDict) : Except PyErr PyDict :=
  match extra with
  | [] => .ok base
  | (k, v) :: rest =>
    if yahrzeitAllowed.contains k then
      Yahrzeit.mergeParams (dictSet base k v) rest
    else
      match k.data with
      | [] => .error .indexError
      | c :: _ =>
        if c = 'y' || c = 'm' || c = 'd' || c = 's' || c = 't' || c = 'n' then
          Yahrzeit.mergeParams (dictSet base k v) rest
        else .error (.valueError "Invalid extra parameter")

/-- A Python call that passes keyword arguments `kwargs` to a function whose
signature accepts none of them beyond its positional parameter: CPython
raises `TypeError` (unexpected keyword argument) before the body runs; the
body is reached only when every keyword is accepted. -/

def callWithExtraKwargs (acceptedExtra : List String) (kwargs : List String)
    (body : Except PyErr Unit) : Except PyErr Unit :=
  if kwargs.all acceptedExtra.contains then body else .error .typeError

/-- Embeds `Leyning.get_leyning` up to its return: prepare parameters, receive the
transport value, then call `LeyningResponse.from_dict(data, url=...,
params=...)` — `from_dict(data)` accepts no such keywords, so the call
raises `TypeError`; the `.ok ()` body stands for the never-reached normal
return. -/

def Leyning.getLeyning (date start finish : Option DtInput)
    (diaspora triennial : Bool) (_respData : PyVal) : Except PyErr Unit := do
  let _ ← Leyning.prepareParams date start finish diaspora triennial
  callWithExtraKwargs [] ["url", "params"] (.ok ())

/-- Embeds `Yahrzeit.get_yahrzeit` up to its return: merge, receive the transport
value, then `YahrzeitResponse.from_api(data, url=..., params=...)` —
`from_api(data)` accepts no such keywords. -/

def Yahrzeit.getYahrzeit (extra : PyDict) (_respData : PyVal) : Except PyErr Unit := do
  let _ ← Yahrzeit.mergeParams yahrzeitInitParams extra
  callWithExtraKwargs [] ["url", "params"] (.ok ())

/-- Embeds `Converter.__init__`: defaults plus `cfg = "json"`. -/

def converterInitParams : PyDict := dictSet defaultParams "cfg" (.str "json")

/-- Embeds `Converter._format_date`: datetime or validated string; anything else
(including a plain `date`) raises `TypeError`. -/

def Converter.formatDate (dt : DtInput) : Except PyErr String :=
  match dt with
  | .datetime d => .ok (fmtYmd d.year d.month d.day)
  | .str s =>
    if (strptimeYmd s).isSome then .ok s
    else .error (.valueError "time data does not match format")
  | .date _ _ _ => .error .typeError

/-- Embeds `Converter.g2h_single` up to its return: build the parameters, receive
the transport value, then `ConverterResponse.from_api(data, url=...,
params=...)` — `from_api(data)` accepts no such keywords. -/

def Converter.g2hSingle (date : DtInput) (after_sunset strict : Bool)
    (_respData : PyVal) : Except PyErr Unit := do
  let ds ← Converter.formatDate date
  let params ← mergeParams converterInitParams converterAllowed
    [("date", .str ds), ("g2h", .int 1), ("strict", .int (if strict then 1 else 0))]
  let _ := if after_sunset then dictSet params "gs" (.str "on") else params
  callWithExtraKwargs [] ["url", "params"] (.ok ())

/-- Embeds `Converter.h2g_range` up to the transport boundary: the `ndays` guard,
then the parameter build and allow-list merge. -/

def Converter.h2gRangeParams (year : Int) (month : String) (day : Int)
    (ndays : Int) (strict : Bool) : Except PyErr PyDict :=
  if ndays < 2 || ndays > 180 then
    .error (.valueError "ndays must be between 2 and 180")
  else
    mergeParams converterInitParams converterAllowed
      [("hy", .int year), ("hm", .str month), ("hd", .int day),
       ("h2g", .int 1), ("ndays", .int ndays),
       ("strict", .int (if strict then 1 else 0))]

/-- The keyword arguments of `Shabat._parse_params` with their source
defaults. -/

structure ShabatArgs where
  geonameid : Option PyVal := Option.none
  latitude : Option PyVal := Option.none
  longitude : Option PyVal := Option.none
  candle_lighting : Bool := true
  candle_lighting_minutes_before_sunset : Option Int := some 18
  havdalah_minutes_after_sunset : Option Int := some 42
  havdalah_at_nightfall : Bool := false
  leyning : Bool := false
  language : Option PyVal := Option.none

/-- Embeds `Shabat._parse_params`: the two-form location rule, candle/havdalah
options, leyning and language toggles, then the allow-list merge. -/

def Shabat.parseParams (a : ShabatArgs) : Except PyErr PyDict := do
  let params : PyDict := []
  let (params, locCount) ←
    match a.geonameid with
    | some g =>
      if !(pyIsIntInstance g) || pyIntLike g ≤ 0 then
        .error (.valueError "geonameid must be a positive integer")
      else .ok (dictSet params "geonameid" g, (1 : Nat))
    | Option.none => .ok (params, 0)
  let (params, locCount) ←
    if a.latitude.isSome || a.longitude.isSome then
      if a.latitude.isNone || a.longitude.isNone then
        .error (.valueError "Both latitude and longitude must be provided together")
      else
        .ok (dictSet (dictSet params "latitude" (optVal a.latitude)) "longitude"
          (optVal a.longitude), locCount + 1)
    else .ok (params, locCount)
  if locCount = 0 then
    .error (.valueError "You must provide at least one location: geonameid or latitude+longitude")
  else if locCount > 1 then
    .error (.valueError "Provide only one location method: geonameid OR latitude+longitude")
  else do
    let params ←
      match a.candle_lighting, a.candle_lighting_minutes_before_sunset with
      | true, some n =>
        if n < 0 then
          .error (.valueError "candle_lighting_minutes_before_sunset must be nonnegative")
        else .ok (dictSet params "b" (.int n))
      | _, _ => .ok params
    let params ←
      match a.havdalah_minutes_after_sunset with
      | some n =>
        if n < 0 then
          .error (.valueError "havdalah_minutes_after_sunset must be nonnegative")
        else .ok (dictSet params "m" (.int n))
      | Option.none => .ok params
    let params :=
      if a.havdalah_at_nightfall then dictSet params "M" (.str "on") else params
    let params := if a.leyning then dictSet params "leyning" (.str "on") else params
    let params :=
      if optTruthy a.language then dictSet params "lg" (optVal a.language) else params
    mergeParams defaultParams shabbatAllowed params

/-- Embeds `Shabat.get_shabbat` up to its return: parse the arguments, receive the
transport value, then `CalendarResponse(data, url=..., params=...)` —
`CalendarResponse.__init__(self, data)` accepts no such keywords. -/

def Shabat.getShabbat (a : ShabatArgs) (_respData : PyVal) : Except PyErr Unit := do
  let _ ← Shabat.parseParams a
  callWithExtraKwargs [] ["url", "params"] (.ok ())

def yahrzeitFirstCharOk (k : String) : Bool :=
  match k.data with
  | c :: _ => c = 'y' || c = 'm' || c = 'd' || c = 's' || c = 't' || c = 'n'
  | [] => false

/-- Every key of `dictSet d k v` is a key of `d` or is `k`. -/

def isYahrzeitNumberedKey (k : String) : Bool :=
  match k.data with
  | c :: rest =>
    (c = 'y' || c = 'm' || c = 'd' || c = 's' || c = 't' || c = 'n') &&
    (!rest.isEmpty) && rest.all isAsciiDigit && rest.any (fun d2 => d2 != '0')
  | [] => false

/-- Claim C7 counterexample: the yahrzeit merge admits the key "text" —
neither in the allow-list nor of the numbered-field form — into the final
mapping, because only the first character is tested; and the zmanim merge
of an empty extra dict yields the default mapping whose keys cfg and v are
outside the zmanim allow-list. -/

def geoOkB (geonameid : Option PyVal) : Bool :=
  match geonameid with
  | some g => pyIsIntInstance g && decide (0 < pyIntLike g)
  | Option.none => true

/-- Spec side (amended C5): a supplied zip must be a string of exactly five characters accepted by Python str.isdigit. -/

def zipOkB (zip_code : Option PyVal) : Bool :=
  match zip_code with
  | some (.str s) => pyIsDigitStr s && decide (s.length = 5)
  | some _ => false
  | Option.none => true

/-- Spec side (amended C5): the triple counts as detected when any of its three members is truthy. -/

def latDetectedB (latitude longitude tzid : Option PyVal) : Bool :=
  optTruthy latitude || optTruthy longitude || optTruthy tzid

/-- Spec side (amended C5): a detected triple must have all three members non-None. -/

def latOkB (latitude longitude tzid : Option PyVal) : Bool :=
  !(latDetectedB latitude longitude tzid) ||
    (latitude.isSome && longitude.isSome && tzid.isSome)

/-- Spec side (amended C5): the location validator succeeds exactly when every supplied form is valid and exactly one form is detected. -/

def locationSpecOk (geonameid zip_code latitude longitude tzid city : Option PyVal) : Bool :=
  geoOkB geonameid && zipOkB zip_code && latOkB latitude longitude tzid &&
    decide ((if geonameid.isSome then 1 else 0) + (if zip_code.isSome then 1 else 0) +
      (if latDetectedB latitude longitude tzid then 1 else 0) +
      (if city.isSome then (1 : Nat) else 0) = 1)

/-- The geonameid check either raises with the spec-side validity false, or returns whether the form was supplied. -/

theorem C9_get_events_scenario :
    Calendar.getEventsCalls
      { year := some (.int 2024), major_holidays := true,
        geonameid := some (.int 281184) } =
    .ok [[("v", .str "1"), ("cfg", .str "json"), ("year", .int 2024),
          ("geonameid", .int 281184), ("maj", .str "on")]] := by
  rfl

/-- Claim C1 (code bug): Event.from_dict is not total. A well-formed JSON
object whose category is candles, havdalah or zmanim but whose date is
missing raises TypeError (datetime.fromisoformat(None)); a malformed omer
sub-object raises KeyError; a candles object with an unparseable date string
raises ValueError — each contradicting the never-raise/degrade design stated
by the spec (and attempted by the source's own `or None` null-guards). -/

theorem C1_from_dict_not_total :
    Event.fromDict [("category", .str "candles")] = .error .typeError
    ∧ Event.fromDict [("category", .str "havdalah")] = .error .typeError
    ∧ Event.fromDict [("category", .str "zmanim")] = .error .typeError
    ∧ Event.fromDict [("omer", .dict [])] = .error .keyError
    ∧ Event.fromDict [("category", .str "candles"), ("date", .str "not-a-date")]
        = .error (.valueError "Invalid isoformat string") := by
  exact ⟨rfl, rfl, rfl, rfl, rfl⟩

/-- Claim C3 counterexample: the JSON object with category "parashat" (and
nothing else) maps to an Event whose parashat AND shabbat sub-records are
both populated, refuting "at most one of the category sub-records is
non-None"; likewise a holiday object carrying a leyning key populates both
the holiday and the shabbat sub-records while the type tag is holiday. -/

theorem C3_counterexample_two_subrecords :
    (Event.fromDict [("category", .str "parashat")]).map
      (fun e => (e.parashat.isSome, e.shabbat.isSome, e.type))
      = .ok (true, true, .parashat)
    ∧ (Event.fromDict [("category", .str "holiday"), ("leyning", .dict [])]).map
        (fun e => (e.holiday.isSome, e.shabbat.isSome, e.type))
        = .ok (true, true, .holiday) := by
  exact ⟨rfl, rfl⟩

/-- Claim C4 (code bug): for start/end endpoints given as canonical
YYYY-MM-DD text, Calendar._validate_date_params returns datetime OBJECTS
(the value of datetime.strptime), not text — the string branch of
Calendar._format_datetime returns the parsed value instead of the string,
the inconsistency the spec's design notes flag as not the intended
contract. -/

theorem C4_string_branch_returns_datetime :
    Calendar.validateDateParams (some (.str "2024-01-01"))
      (some (.str "2024-12-31")) Option.none Option.none Option.none Option.none
      = .ok [("start", .dt { year := 2024, month := 1, day := 1 }),
             ("end", .dt { year := 2024, month := 12, day := 31 })]
    ∧ Calendar.formatDatetime (.str "2024-01-01")
        = .ok (.dt { year := 2024, month := 1, day := 1 }) := by
  exact ⟨rfl, rfl⟩

/-- Claim C5 counterexample: a zip code of five ARABIC-INDIC digit
characters is not five ASCII digits, yet the location validator accepts it
and returns it as the zip mapping, because Python's str.isdigit accepts all
Unicode decimal digits. -/

theorem C5_counterexample_nonascii_zip :
    Calendar.validateLocationParams Option.none (some (.str "٠٠٠٠٠"))
      Option.none Option.none Option.none Option.none
      = .ok (some [("zip", .str "٠٠٠٠٠")])
    ∧ ("٠٠٠٠٠".data.all isAsciiDigit) = false := by
  exact ⟨rfl, rfl⟩

/-- Claim C6 counterexample: 2024-01-01 to 2024-06-29 spans 181 days
inclusive (exceeding 180), yet both the leyning and the zmanim date
validators emit NO truncation warning, because the source compares the
exclusive difference (end - start).days = 180 against 180. -/

theorem C6_counterexample_inclusive_span_181 :
    Leyning.validateDates Option.none (some (.str "2024-01-01"))
      (some (.str "2024-06-29"))
      = .ok ([("start", .str "2024-01-01"), ("end", .str "2024-06-29")], [])
    ∧ Zmanim.validateDates Option.none (some (.str "2024-01-01"))
        (some (.str "2024-06-29"))
        = .ok ([("start", .str "2024-01-01"), ("end", .str "2024-06-29")], [])
    ∧ daysFromCivil 2024 6 29 - daysFromCivil 2024 1 1 + 1 = 181 := by
  exact ⟨rfl, rfl, rfl⟩

theorem C8_h2g_range_ndays_bounds :
    ∀ (year : Int) (month : String) (day ndays : Int) (strict : Bool),
      ((Converter.h2gRangeParams year month day ndays strict).isOk = true)
        ↔ (2 ≤ ndays ∧ ndays ≤ 180) := by
  intro y mo d n st
  unfold Converter.h2gRangeParams
  split
  next h =>
    rw [Bool.or_eq_true, decide_eq_true_eq, decide_eq_true_eq] at h
    exact iff_of_false (by simp [Except.isOk, Except.toBool]) (by omega)
  next h =>
    rw [Bool.or_eq_true, decide_eq_true_eq, decide_eq_true_eq] at h
    push_neg at h
    exact iff_of_true (by rfl) (by omega)

/-- Claim C2: the sync retrieval paths of leyning, shabbat, yahrzeit and the
converter single g2h conversion never return a response value normally:
whatever the transport yields, the response-construction call passes the
unexpected keyword arguments url and params, which raises TypeError; the
four concrete conjuncts show the error is precisely TypeError once the
parameter-preparation stage has succeeded. -/

theorem C2_response_construction_type_errors :
    (∀ date start finish diaspora triennial respData,
       (Leyning.getLeyning date start finish diaspora triennial respData).isOk = false)
    ∧ (∀ a respData, (Shabat.getShabbat a respData).isOk = false)
    ∧ (∀ extra respData, (Yahrzeit.getYahrzeit extra respData).isOk = false)
    ∧ (∀ date as st respData, (Converter.g2hSingle date as st respData).isOk = false)
    ∧ (∀ respData, Leyning.getLeyning (some (.str "2024-01-01"))
         Option.none Option.none false true respData = .error .typeError)
    ∧ (∀ respData, Shabat.getShabbat { geonameid := some (.int 281184) } respData
         = .error .typeError)
    ∧ (∀ respData, Yahrzeit.getYahrzeit [] respData = .error .typeError)
    ∧ (∀ respData, Converter.g2hSingle (.str "2024-01-01") false true respData
         = .error .typeError) := by
  refine ⟨?_, ?_, ?_, ?_, fun r => rfl, fun r => rfl, fun r => rfl, fun r => rfl⟩
  · intro date start finish dia tri r
    unfold Leyning.getLeyning
    cases h : Leyning.prepareParams date start finish dia tri <;>
      simp [h, callWithExtraKwargs, Except.isOk, Except.toBool, Bind.bind, Except.bind]
  · intro a r
    unfold Shabat.getShabbat
    cases h : Shabat.parseParams a <;>
      simp [h, callWithExtraKwargs, Except.isOk, Except.toBool, Bind.bind, Except.bind]
  · intro extra r
    unfold Yahrzeit.getYahrzeit
    cases h : Yahrzeit.mergeParams yahrzeitInitParams extra <;>
      simp [h, callWithExtraKwargs, Except.isOk, Except.toBool, Bind.bind, Except.bind]
  · intro date as st r
    unfold Converter.g2hSingle
    cases h1 : Converter.formatDate date with
    | error e =>
      simp [h1, callWithExtraKwargs, Except.isOk, Except.toBool, Bind.bind, Except.bind]
    | ok ds =>
      cases h2 : mergeParams converterInitParams converterAllowed
          [("date", .str ds), ("g2h", .int 1), ("strict", .int (if st then 1 else 0))] <;>
        simp [h1, h2, callWithExtraKwargs, Except.isOk, Except.toBool, Bind.bind, Except.bind]

lemma strptime_nonempty {s : String} {d : PyDateTime}
    (h : strptimeYmd s = some d) : (s.length != 0) = true := by
  cases hs : s.data with
  | nil =>
    rw [strptimeYmd, hs] at h
    simp [parseYearField] at h
  | cons c cs =>
    have hl : s.length = s.data.length := rfl
    simp [hl, hs]

/-- Claim C10: the zmanim parameter preparation enforces no
location-presence or exclusivity rule — a date-only call succeeds, a call
with BOTH geonameid and a latitude/longitude pair succeeds with all three
keys in the final mapping, and the only location constraint is that
latitude and longitude must come together (either one alone raises). -/

theorem C10_zmanim_location_rules :
    ∀ (s : String) (sd : PyDateTime), strptimeYmd s = some sd →
    ∀ (g lat lon : PyVal),
      ((Zmanim.prepareParams (some (.str s)) Option.none Option.none
          Option.none Option.none Option.none false false).isOk = true)
      ∧ (Zmanim.prepareParams (some (.str s)) Option.none Option.none
           (some g) (some lat) (some lon) false false
          = .ok ([("v", .str "1"), ("cfg", .str "json"), ("date", .str s),
                  ("geonameid", g), ("latitude", lat), ("longitude", lon)], []))
      ∧ (Zmanim.prepareParams (some (.str s)) Option.none Option.none
           Option.none (some lat) Option.none false false
          = .error (.valueError "Both latitude and longitude must be provided together"))
      ∧ (Zmanim.prepareParams (some (.str s)) Option.none Option.none
           Option.none Option.none (some lon) false false
          = .error (.valueError "Both latitude and longitude must be provided together")) := by
  intro s sd h g lat lon
  have hne := strptime_nonempty h
  refine ⟨?_, ?_, ?_, ?_⟩ <;>
    simp [Zmanim.prepareParams, Zmanim.validateDates, Zmanim.formatDatetime,
      dtInputTruthy, hne, h, mergeParams, dictSet, dictGet, dictGetD, optVal,
      defaultParams, zmanimAllowed, Bind.bind, Except.bind, Except.isOk,
      Except.toBool]

/-- Witness for C10 at the concrete date 2024-01-01, geonameid 281184 and
coordinates 32/34. -/

theorem C10_zmanim_location_rules_witness :
    ((Zmanim.prepareParams (some (.str "2024-01-01")) Option.none Option.none
        Option.none Option.none Option.none false false).isOk = true)
    ∧ (Zmanim.prepareParams (some (.str "2024-01-01")) Option.none Option.none
         (some (.int 281184)) (some (.float 32)) (some (.float 34)) false false
        = .ok ([("v", .str "1"), ("cfg", .str "json"),
                ("date", .str "2024-01-01"), ("geonameid", .int 281184),
                ("latitude", .float 32), ("longitude", .float 34)], []))
    ∧ (Zmanim.prepareParams (some (.str "2024-01-01")) Option.none Option.none
         Option.none (some (.float 32)) Option.none false false
        = .error (.valueError "Both latitude and longitude must be provided together"))
    ∧ (Zmanim.prepareParams (some (.str "2024-01-01")) Option.none Option.none
         Option.none Option.none (some (.float 34)) false false
        = .error (.valueError "Both latitude and longitude must be provided together")) :=
  C10_zmanim_location_rules "2024-01-01" { year := 2024, month := 1, day := 1 }
    rfl (.int 281184) (.float 32) (.float 34)

/-- Claim C6 (amended): for every valid (start, end) pair — whatever form
the endpoints take — the leyning and zmanim date validators always succeed
(never fail on range length) and emit the truncation warning exactly when
the day DIFFERENCE end - start exceeds 180, i.e. when the inclusive span
exceeds 181 days (not 180 as claimed). -/

theorem C6_amended_range_warning :
    ∀ (s e : DtInput) (ss es : String) (sd ed : PyDateTime),
      (Leyning.formatDatetime s = .ok ss → Leyning.formatDatetime e = .ok es →
       dtInputTruthy (some s) = true → dtInputTruthy (some e) = true →
       strptimeYmd ss = some sd → strptimeYmd es = some ed →
       Leyning.validateDates Option.none (some s) (some e) =
         .ok ([("start", .str ss), ("end", .str es)],
              if dtDiffDays ed sd > 180 then [rangeWarning] else []))
      ∧ (Zmanim.formatDatetime s = .ok ss → Zmanim.formatDatetime e = .ok es →
         dtInputTruthy (some s) = true → dtInputTruthy (some e) = true →
         strptimeYmd ss = some sd → strptimeYmd es = some ed →
         Zmanim.validateDates Option.none (some s) (some e) =
           .ok ([("start", .str ss), ("end", .str es)],
                if dtDiffDays ed sd > 180 then [rangeWarning] else [])) := by
  intro s e ss es sd ed
  constructor
  · intro h1 h2 ht1 ht2 hp1 hp2
    have h0 : dtInputTruthy (Option.none : Option DtInput) = false := rfl
    simp [Leyning.validateDates, h0, ht1, ht2, h1, h2, hp1, hp2,
      Bind.bind, Except.bind]
  · intro h1 h2 ht1 ht2 hp1 hp2
    have h0 : dtInputTruthy (Option.none : Option DtInput) = false := rfl
    simp [Zmanim.validateDates, h0, ht1, ht2, h1, h2, hp1, hp2,
      Bind.bind, Except.bind]

/-- Witness for C6 at the concrete 366-day-difference pair 2024-01-01 to
2024-12-31 (a 200-plus-day span that succeeds and warns). -/

theorem C6_amended_range_warning_witness :
    Leyning.validateDates Option.none (some (.str "2024-01-01"))
      (some (.str "2024-12-31")) =
      .ok ([("start", .str "2024-01-01"), ("end", .str "2024-12-31")],
           [rangeWarning]) := by
  have h := (C6_amended_range_warning (.str "2024-01-01") (.str "2024-12-31")
    "2024-01-01" "2024-12-31" { year := 2024, month := 1, day := 1 }
    { year := 2024, month := 12, day := 31 }).1 rfl rfl rfl rfl rfl rfl
  simpa using h

lemma dictSet_keys {d : PyDict} {k : String} {v : PyVal} :
    ∀ k2 ∈ (dictSet d k v).map Prod.fst, k2 ∈ d.map Prod.fst ∨ k2 = k := by
  induction d with
  | nil => simp [dictSet]
  | cons kv rest ih =>
    intro k2 hk2
    rw [dictSet] at hk2
    by_cases he : kv.1 = k
    · rw [if_pos he] at hk2
      simp at hk2
      rcases hk2 with h | h
      · exact Or.inl (by simp [h])
      · exact Or.inl (by simp [h])
    · rw [if_neg he] at hk2
      simp at hk2
      rcases hk2 with h | h
      · exact Or.inl (by simp [h])
      · rcases ih k2 (by simpa using h) with h2 | h2
        · exact Or.inl (by simp; right; exact (by simpa using h2))
        · exact Or.inr h2

/-- Keys of a successful generic merge come from the stored base mapping or the allow-list. -/

lemma mergeParams_ok_keys :
    ∀ (extra base merged : PyDict) (allowed : List String),
      mergeParams base allowed extra = .ok merged →
      ∀ k2 ∈ merged.map Prod.fst,
        k2 ∈ base.map Prod.fst ∨ allowed.contains k2 = true := by
  intro extra
  induction extra with
  | nil =>
    intro base merged allowed h k2 hk2
    rw [mergeParams] at h
    cases h
    exact Or.inl hk2
  | cons kv rest ih =>
    intro base merged allowed h k2 hk2
    rw [mergeParams] at h
    by_cases hc : allowed.contains kv.1
    · rw [if_pos hc] at h
      rcases ih _ _ _ h k2 hk2 with h2 | h2
      · rcases dictSet_keys k2 h2 with h3 | h3
        · exact Or.inl h3
        · subst h3; exact Or.inr hc
      · exact Or.inr h2
    · rw [if_neg hc] at h
      cases h

/-- A successful generic merge implies every extra key passed the allow-list test (fail-fast). -/

lemma mergeParams_ok_extra :
    ∀ (extra base merged : PyDict) (allowed : List String),
      mergeParams base allowed extra = .ok merged →
      ∀ kv ∈ extra, allowed.contains kv.1 = true := by
  intro extra
  induction extra with
  | nil => intro base merged allowed h kv hkv; cases hkv
  | cons kv0 rest ih =>
    intro base merged allowed h kv hkv
    rw [mergeParams] at h
    by_cases hc : allowed.contains kv0.1
    · rw [if_pos hc] at h
      rcases hkv with _ | hkv
      · exact hc
      · exact ih _ _ _ h kv (by assumption)
    · rw [if_neg hc] at h
      cases h

/-- Keys of a successful yahrzeit merge come from the base mapping, the allow-list, or pass the first-character test. -/

lemma yahrzeitMerge_ok_keys :
    ∀ (extra base merged : PyDict),
      Yahrzeit.mergeParams base extra = .ok merged →
      ∀ k2 ∈ merged.map Prod.fst,
        k2 ∈ base.map Prod.fst ∨ yahrzeitAllowed.contains k2 = true ∨
          yahrzeitFirstCharOk k2 = true := by
  intro extra
  induction extra with
  | nil =>
    intro base merged h k2 hk2
    rw [Yahrzeit.mergeParams] at h
    cases h
    exact Or.inl hk2
  | cons kv rest ih =>
    intro base merged h k2 hk2
    rw [Yahrzeit.mergeParams] at h
    split at h
    next hc =>
      rcases ih _ _ h k2 hk2 with h2 | h2
      · rcases dictSet_keys k2 h2 with h3 | h3
        · exact Or.inl h3
        · subst h3; exact Or.inr (Or.inl hc)
      · exact Or.inr h2
    next hc =>
      split at h
      next heq => cases h
      next c cs heq =>
        split at h
        next hfc =>
          rcases ih _ _ h k2 hk2 with h2 | h2
          · rcases dictSet_keys k2 h2 with h3 | h3
            · exact Or.inl h3
            · subst h3
              exact Or.inr (Or.inr (by rw [yahrzeitFirstCharOk, heq]; exact hfc))
          · exact Or.inr h2
        next hfc => cases h

/-- A successful yahrzeit merge implies every extra key is allowed or passes the first-character test. -/

lemma yahrzeitMerge_ok_extra :
    ∀ (extra base merged : PyDict),
      Yahrzeit.mergeParams base extra = .ok merged →
      ∀ kv ∈ extra, yahrzeitAllowed.contains kv.1 = true ∨
        yahrzeitFirstCharOk kv.1 = true := by
  intro extra
  induction extra with
  | nil => intro base merged h kv hkv; cases hkv
  | cons kv0 rest ih =>
    intro base merged h kv hkv
    rw [Yahrzeit.mergeParams] at h
    split at h
    next hc =>
      rcases hkv with _ | hkv
      · exact Or.inl hc
      · exact ih _ _ h kv (by assumption)
    next hc =>
      split at h
      next heq => cases h
      next c cs heq =>
        split at h
        next hfc =>
          rcases hkv with _ | hkv
          · exact Or.inr (by rw [yahrzeitFirstCharOk, heq]; exact hfc)
          · exact ih _ _ h kv (by assumption)
        next hfc => cases h

/-- Claim C7 (amended): in every parameter mapping produced by a merge step
without raising, every key either was already present in the client's
stored/default mapping, or belongs to the endpoint's allow-list, or — for
yahrzeit — merely has FIRST character in the set y,m,d,s,t,n (the claimed
positive-integer-index pattern is not checked); and every caller-supplied
extra key passed that test, i.e. offending extras are rejected before any
network call. -/

theorem C7_amended_key_invariant :
    (∀ base allowed extra merged, mergeParams base allowed extra = .ok merged →
       ((merged.map Prod.fst).all
          (fun k => decide (k ∈ base.map Prod.fst) || allowed.contains k) = true)
       ∧ (extra.all (fun kv => allowed.contains kv.1) = true))
    ∧ (∀ base extra merged, Yahrzeit.mergeParams base extra = .ok merged →
       ((merged.map Prod.fst).all
          (fun k => decide (k ∈ base.map Prod.fst) || yahrzeitAllowed.contains k ||
            yahrzeitFirstCharOk k) = true)
       ∧ (extra.all (fun kv =>
            yahrzeitAllowed.contains kv.1 || yahrzeitFirstCharOk kv.1) = true)) := by
  constructor
  · intro base allowed extra merged h
    constructor
    · rw [List.all_eq_true]
      intro k hk
      rcases mergeParams_ok_keys extra base merged allowed h k hk with h2 | h2
      · simp [h2]
      · simp only [Bool.or_eq_true, decide_eq_true_eq]
        right
        exact h2
    · rw [List.all_eq_true]
      intro kv hkv
      exact mergeParams_ok_extra extra base merged allowed h kv hkv
  · intro base extra merged h
    constructor
    · rw [List.all_eq_true]
      intro k hk
      rcases yahrzeitMerge_ok_keys extra base merged h k hk with h2 | h2 | h2
      · simp [h2]
      · simp only [Bool.or_eq_true, decide_eq_true_eq]
        left; right
        exact h2
      · simp [Bool.or_eq_true, h2]
    · rw [List.all_eq_true]
      intro kv hkv
      rcases yahrzeitMerge_ok_extra extra base merged h kv hkv with h2 | h2
      · simp only [Bool.or_eq_true]
        left
        exact h2
      · simp [Bool.or_eq_true, h2]

/-- Spec-side rendering of the numbered-field pattern as claim C7 words it:
one of the letters y,m,d,s,t,n followed by a positive integer index. -/

theorem C7_counterexample_keys_outside_allowlist :
    Yahrzeit.mergeParams yahrzeitInitParams [("text", .int 1)]
      = .ok [("v", .str "yahrzeit"), ("cfg", .str "json"), ("text", .int 1)]
    ∧ yahrzeitAllowed.contains "text" = false
    ∧ isYahrzeitNumberedKey "text" = false
    ∧ mergeParams defaultParams zmanimAllowed []
        = .ok [("v", .str "1"), ("cfg", .str "json")]
    ∧ zmanimAllowed.contains "cfg" = false
    ∧ zmanimAllowed.contains "v" = false := by
  exact ⟨rfl, rfl, rfl, rfl, rfl, rfl⟩

/-- Witness for C7 at the zmanim merge of a single date parameter over the
default mapping. -/

theorem C7_amended_key_invariant_witness :
    (([("v", PyVal.str "1"), ("cfg", PyVal.str "json"),
       ("date", PyVal.str "2024-01-01")].map Prod.fst).all
       (fun k => decide (k ∈ defaultParams.map Prod.fst) ||
         zmanimAllowed.contains k) = true)
    ∧ (([("date", PyVal.str "2024-01-01")] : PyDict).all
        (fun kv => zmanimAllowed.contains kv.1) = true) :=
  C7_amended_key_invariant.1 defaultParams zmanimAllowed
    [("date", PyVal.str "2024-01-01")]
    [("v", PyVal.str "1"), ("cfg", PyVal.str "json"),
     ("date", PyVal.str "2024-01-01")] rfl

lemma geoCheck_cases (g : Option PyVal) :
    (∃ e, Calendar.geoCheck g = .error e ∧ geoOkB g = false) ∨
      (Calendar.geoCheck g = .ok g.isSome ∧ geoOkB g = true) := by
  rcases g with _ | gv
  · exact Or.inr ⟨rfl, rfl⟩
  · by_cases hi : pyIsIntInstance gv = true
    · by_cases hp : pyIntLike gv ≤ 0
      · have hdec : decide (pyIntLike gv ≤ 0) = true := decide_eq_true hp
        have hspec : decide (0 < pyIntLike gv) = false := decide_eq_false (by omega)
        left
        refine ⟨.valueError "geonameid must be a positive integer", ?_, ?_⟩
        · rw [Calendar.geoCheck, if_pos (by rw [hdec]; simp)]
        · rw [geoOkB, hspec]
          simp
      · have hdec : decide (pyIntLike gv ≤ 0) = false := decide_eq_false hp
        have hspec : decide (0 < pyIntLike gv) = true := decide_eq_true (by omega)
        right
        constructor
        · rw [Calendar.geoCheck, if_neg (by rw [hdec, hi]; simp)]
          rfl
        · rw [geoOkB, hspec, hi]
          rfl
    · have hib : pyIsIntInstance gv = false := by
        revert hi
        cases pyIsIntInstance gv <;> simp
      left
      refine ⟨.valueError "geonameid must be a positive integer", ?_, ?_⟩
      · rw [Calendar.geoCheck, if_pos (by rw [hib]; simp)]
      · rw [geoOkB, hib]
        rfl

/-- The zip check either raises with the spec-side validity false, or returns whether the form was supplied. -/

lemma zipCheck_cases (z : Option PyVal) :
    (∃ e, Calendar.zipCheck z = .error e ∧ zipOkB z = false) ∨
      (Calendar.zipCheck z = .ok z.isSome ∧ zipOkB z = true) := by
  rcases z with _ | zv
  · exact Or.inr ⟨rfl, rfl⟩
  · rcases zv with _ | b | n | q | s | dtv | xs | es
    case str =>
      by_cases hc : (pyIsDigitStr s && decide (s.length = 5)) = true
      · right
        constructor
        · rw [Calendar.zipCheck, if_pos (by rw [hc])]
          rfl
        · rw [zipOkB, hc]
      · have hcf : (pyIsDigitStr s && decide (s.length = 5)) = false := by
          revert hc
          cases (pyIsDigitStr s && decide (s.length = 5)) <;> simp
        left
        refine ⟨.valueError "zip must be a 5-digit string", ?_, ?_⟩
        · rw [Calendar.zipCheck, if_neg (by rw [hcf]; simp)]
        · rw [zipOkB, hcf]
    all_goals exact Or.inl ⟨_, rfl, rfl⟩

/-- The lat/long/tzid check either raises with the spec-side validity false, or returns whether the triple was detected. -/

lemma latlonCheck_cases (lat lon tz : Option PyVal) :
    (∃ e, Calendar.latlonCheck lat lon tz = .error e ∧ latOkB lat lon tz = false) ∨
      (Calendar.latlonCheck lat lon tz = .ok (latDetectedB lat lon tz) ∧
        latOkB lat lon tz = true) := by
  by_cases hd : (optTruthy lat || optTruthy lon || optTruthy tz) = true
  · by_cases hm : (lat.isNone || lon.isNone || tz.isNone) = true
    · have hsome : (lat.isSome && lon.isSome && tz.isSome) = false := by
        rcases lat with _ | lv <;> rcases lon with _ | lov <;> rcases tz with _ | tv <;>
          simp_all
      left
      refine ⟨.valueError "latitude, longitude, and tzid must all be provided together", ?_, ?_⟩
      · rw [Calendar.latlonCheck, if_pos hd, if_pos hm]
      · rw [latOkB, latDetectedB, hd, hsome]
        rfl
    · have hsome : (lat.isSome && lon.isSome && tz.isSome) = true := by
        rcases lat with _ | lv <;> rcases lon with _ | lov <;> rcases tz with _ | tv <;>
          simp_all
      right
      constructor
      · rw [Calendar.latlonCheck, if_pos hd, if_neg (by rw [show (lat.isNone || lon.isNone || tz.isNone) = false by revert hm; cases (lat.isNone || lon.isNone || tz.isNone) <;> simp]; simp)]
        rw [latDetectedB, hd]
      · rw [latOkB, hsome]
        simp
  · have hdf : (optTruthy lat || optTruthy lon || optTruthy tz) = false := by
      revert hd
      cases (optTruthy lat || optTruthy lon || optTruthy tz) <;> simp
    right
    constructor
    · rw [Calendar.latlonCheck, if_neg (by rw [hdf]; simp), latDetectedB, hdf]
    · rw [latOkB, latDetectedB, hdf]
      rfl

/-- The return cascade never raises. -/

lemma locationReturn_isOk (g z lat lon tz c : Option PyVal) :
    (Calendar.locationReturn g z lat lon tz c).isOk = true := by
  rcases g with _ | gv <;> rcases z with _ | zv <;> rcases lat with _ | lv <;>
    rcases c with _ | cv <;> rfl

/-- Any mapping produced by the return cascade carries exactly one form's keys. -/

lemma locationReturn_keys (g z lat lon tz c : Option PyVal) :
    ∀ m, Calendar.locationReturn g z lat lon tz c = .ok (some m) →
      m.map Prod.fst = ["geonameid"] ∨ m.map Prod.fst = ["zip"] ∨
      m.map Prod.fst = ["latitude", "longitude", "tzid"] ∨
      m.map Prod.fst = ["city"] := by
  intro m hm
  rcases g with _ | gv <;> rcases z with _ | zv <;> rcases lat with _ | lv <;>
    rcases c with _ | cv <;>
    rw [Calendar.locationReturn] at hm <;>
    injection hm with hm2 <;>
    first
    | (injection hm2 with hm3; subst hm3; simp)
    | injection hm2

/-- Claim C5 (amended): the calendar location validator succeeds exactly
when every supplied form is valid — positive-int geonameid; zip of exactly
five characters accepted by Python str.isdigit (Unicode decimal digits, NOT
only ASCII); triple complete whenever any of latitude/longitude/tzid is
truthy — and exactly one form is detected; a produced mapping always
carries exactly one form's keys (that of the first non-None form in source
order). -/

theorem C5_amended_location_validator :
    ∀ g z lat lon tz c,
      ((Calendar.validateLocationParams g z lat lon tz c).isOk
        = locationSpecOk g z lat lon tz c)
      ∧ (∀ m, Calendar.validateLocationParams g z lat lon tz c = .ok (some m) →
          m.map Prod.fst = ["geonameid"] ∨ m.map Prod.fst = ["zip"] ∨
          m.map Prod.fst = ["latitude", "longitude", "tzid"] ∨
          m.map Prod.fst = ["city"]) := by
  intro g z lat lon tz c
  have hgeo := geoCheck_cases g
  have hzip := zipCheck_cases z
  have hlat := latlonCheck_cases lat lon tz
  constructor
  · rw [Calendar.validateLocationParams, locationSpecOk]
    rcases hgeo with ⟨e1, he, hs⟩ | ⟨he, hs⟩
    · rw [he, hs]
      simp [Bind.bind, Except.bind, Except.isOk, Except.toBool]
    · rw [he, hs]
      simp only [Bind.bind, Except.bind, Bool.true_and]
      rcases hzip with ⟨e2, he2, hs2⟩ | ⟨he2, hs2⟩
      · rw [he2, hs2]
        simp [Except.isOk, Except.toBool]
      · rw [he2, hs2]
        simp only [Bool.true_and]
        rcases hlat with ⟨e3, he3, hs3⟩ | ⟨he3, hs3⟩
        · rw [he3, hs3]
          simp [Except.isOk, Except.toBool]
        · rw [he3, hs3]
          simp only [Bool.true_and]
          set n : Nat := (if g.isSome then 1 else 0) + (if z.isSome then 1 else 0) +
            (if latDetectedB lat lon tz then 1 else 0) +
            (if c.isSome then 1 else 0) with hn
          by_cases h0 : n = 0
          · have : decide (n = 1) = false := decide_eq_false (by omega)
            simp [h0, this, Except.isOk, Except.toBool]
          · by_cases h1 : n > 1
            · have hd1 : decide (n = 1) = false := decide_eq_false (by omega)
              simp [h0, h1, hd1, Except.isOk, Except.toBool]
            · have hd1 : decide (n = 1) = true := decide_eq_true (by omega)
              simp [h0, h1, hd1, locationReturn_isOk]
  · intro m hm
    rw [Calendar.validateLocationParams] at hm
    rcases hgeo with ⟨e1, he, hs⟩ | ⟨he, hs⟩
    · rw [he] at hm
      cases hm
    · rw [he] at hm
      simp only [Bind.bind, Except.bind] at hm
      rcases hzip with ⟨e2, he2, hs2⟩ | ⟨he2, hs2⟩
      · rw [he2] at hm
        cases hm
      · rw [he2] at hm
        simp only [Except.bind] at hm
        rcases hlat with ⟨e3, he3, hs3⟩ | ⟨he3, hs3⟩
        · rw [he3] at hm
          cases hm
        · rw [he3] at hm
          simp only [Except.bind] at hm
          by_cases h0 : (if g.isSome then 1 else 0) + (if z.isSome then 1 else 0) +
            (if latDetectedB lat lon tz then 1 else 0) + (if c.isSome then (1 : Nat) else 0) = 0
          · rw [if_pos h0] at hm
            cases hm
          · rw [if_neg h0] at hm
            by_cases h1 : (if g.isSome then 1 else 0) + (if z.isSome then 1 else 0) +
              (if latDetectedB lat lon tz then 1 else 0) + (if c.isSome then (1 : Nat) else 0) > 1
            · rw [if_pos h1] at hm
              cases hm
            · rw [if_neg h1] at hm
              exact locationReturn_keys g z lat lon tz c m hm

/-- Witness for C5 at the city-only input "Paris". -/

theorem C5_amended_location_validator_witness :
    ((Calendar.validateLocationParams Option.none Option.none Option.none
        Option.none Option.none (some (PyVal.str "Paris"))).isOk
      = locationSpecOk Option.none Option.none Option.none Option.none
          Option.none (some (PyVal.str "Paris")))
    ∧ (List.map Prod.fst [("city", PyVal.str "Paris")] = ["geonameid"] ∨
       List.map Prod.fst [("city", PyVal.str "Paris")] = ["zip"] ∨
       List.map Prod.fst [("city", PyVal.str "Paris")] = ["latitude", "longitude", "tzid"] ∨
       List.map Prod.fst [("city", PyVal.str "Paris")] = ["city"]) :=
  ⟨(C5_amended_location_validator Option.none Option.none Option.none
      Option.none Option.none (some (PyVal.str "Paris"))).1,
   (C5_amended_location_validator Option.none Option.none Option.none
      Option.none Option.none (some (PyVal.str "Paris"))).2
     [("city", PyVal.str "Paris")] rfl⟩

lemma holidayBlock_isSome (data : PyDict) :
    (holidayBlock data).isSome = pyEqStr (dictGet data "category") "holiday" := by
  rw [holidayBlock]
  split <;> simp_all

/-- On success, the parashat sub-record is populated exactly when the category value is the string parashat. -/

lemma parashatBlock_ok {data : PyDict} {o : Option ParashatInfo}
    (h : parashatBlock data = .ok o) :
    o.isSome = pyEqStr (dictGet data "category") "parashat" := by
  rw [parashatBlock] at h
  split at h
  next hc =>
    rw [hc]
    cases hp : ParashatInfo.fromDict (dictGetD data "leyning" (.dict [])) <;>
      rw [hp] at h <;> simp [Bind.bind, Except.bind] at h
    rw [← h]
    rfl
  next hc =>
    injection h with h2
    subst h2
    simp only [Option.isSome]
    revert hc
    cases pyEqStr (dictGet data "category") "parashat" <;> simp

/-- On success, the zmanim sub-record is populated exactly when the category value is the string zmanim. -/

lemma zmanimBlock_ok {data : PyDict} {o : Option ZmanimEvent}
    (h : zmanimBlock data = .ok o) :
    o.isSome = pyEqStr (dictGet data "category") "zmanim" := by
  rw [zmanimBlock] at h
  split at h
  next hc =>
    rw [hc]
    cases hp : pyFromIsoformat (dictGetD data "date" .none) <;>
      rw [hp] at h <;> simp [Bind.bind, Except.bind] at h
    rw [← h]
    rfl
  next hc =>
    injection h with h2
    subst h2
    simp only [Option.isSome]
    revert hc
    cases pyEqStr (dictGet data "category") "zmanim" <;> simp

/-- On success, the havdalah sub-record is populated exactly when the category value is the string havdalah. -/

lemma havdalahBlock_ok {data : PyDict} {o : Option HavdalahInfo}
    (h : havdalahBlock data = .ok o) :
    o.isSome = pyEqStr (dictGet data "category") "havdalah" := by
  rw [havdalahBlock] at h
  split at h
  next hc =>
    rw [hc]
    cases hp : pyFromIsoformat (dictGetD data "date" .none) <;>
      rw [hp] at h <;> simp [Bind.bind, Except.bind] at h
    rw [← h]
    rfl
  next hc =>
    injection h with h2
    subst h2
    simp only [Option.isSome]
    revert hc
    cases pyEqStr (dictGet data "category") "havdalah" <;> simp

/-- On success, the candle sub-record is populated exactly when the category value is the string candles. -/

lemma candleBlock_ok {data : PyDict} {o : Option CandleInfo}
    (h : candleBlock data = .ok o) :
    o.isSome = pyEqStr (dictGet data "category") "candles" := by
  rw [candleBlock] at h
  split at h
  next hc =>
    rw [hc]
    cases hp : pyFromIsoformat (dictGetD data "date" .none) <;>
      rw [hp] at h <;> simp [Bind.bind, Except.bind] at h
    rw [← h]
    rfl
  next hc =>
    injection h with h2
    subst h2
    simp only [Option.isSome]
    revert hc
    cases pyEqStr (dictGet data "category") "candles" <;> simp

/-- On success, the shabbat sub-record is populated exactly when the category is shabbat or parashat or a leyning key is present. -/

lemma shabbatBlockTwo_ok {data : PyDict} {o : Option ShabbatInfo}
    (h : shabbatBlockTwo data = .ok o) :
    o.isSome = (pyEqStr (dictGet data "category") "shabbat" ||
      pyEqStr (dictGet data "category") "parashat" ||
      dictContains data "leyning") := by
  rw [shabbatBlockTwo] at h
  split at h
  next hc =>
    rw [hc]
    cases hp : shabbatInfoOf data <;>
      rw [hp] at h <;> simp [Bind.bind, Except.bind] at h
    rw [← h]
    rfl
  next hc =>
    injection h with h2
    subst h2
    simp only [Option.isSome]
    revert hc
    cases (pyEqStr (dictGet data "category") "shabbat" ||
      pyEqStr (dictGet data "category") "parashat" ||
      dictContains data "leyning") <;> simp

/-- Inversion of a successful Except bind. -/

lemma exceptBind_ok {α β : Type} {x : Except PyErr α} {f : α → Except PyErr β}
    {b : β} (h : Bind.bind x f = Except.ok b) :
    ∃ a, x = Except.ok a ∧ f a = Except.ok b := by
  cases x with
  | ok a => exact ⟨a, rfl, by simpa [Bind.bind, Except.bind] using h⟩
  | error e => simp [Bind.bind, Except.bind] at h

/-- On success, the roshchodesh sub-record is populated exactly when the category is roshchodesh or rosh chodesh (with a space). -/

lemma roshChodeshBlock_ok {data : PyDict} {o : Option RoshChodeshInfo}
    (h : roshChodeshBlock data = .ok o) :
    o.isSome = (pyEqStr (dictGet data "category") "roshchodesh" ||
      pyEqStr (dictGet data "category") "rosh chodesh") := by
  rw [roshChodeshBlock] at h
  split at h
  next hc =>
    rw [hc]
    obtain ⟨a1, h1, h⟩ := exceptBind_ok h
    obtain ⟨a2, h2, h⟩ := exceptBind_ok h
    obtain ⟨a3, h3, h⟩ := exceptBind_ok h
    obtain ⟨a4, h4, h⟩ := exceptBind_ok h
    injection h with h5
    subst h5
    rfl
  next hc =>
    injection h with h2
    subst h2
    simp only [Option.isSome]
    revert hc
    cases (pyEqStr (dictGet data "category") "roshchodesh" ||
      pyEqStr (dictGet data "category") "rosh chodesh") <;> simp

/-- On success, the omer sub-record is populated exactly when an omer key is present. -/

lemma omerBlock_ok {data : PyDict} {o : Option OmerInfo}
    (h : omerBlock data = .ok o) :
    o.isSome = dictContains data "omer" := by
  rw [omerBlock] at h
  rw [dictContains]
  cases hg : dictGet data "omer" with
  | none =>
    rw [hg] at h
    injection h with h2
    subst h2
    rfl
  | some omer =>
    rw [hg] at h
    obtain ⟨a1, h1, h⟩ := exceptBind_ok h
    obtain ⟨a2, h2, h⟩ := exceptBind_ok h
    obtain ⟨a3, h3, h⟩ := exceptBind_ok h
    obtain ⟨a4, h4, h⟩ := exceptBind_ok h
    obtain ⟨a5, h5, h⟩ := exceptBind_ok h
    obtain ⟨a6, h6, h⟩ := exceptBind_ok h
    obtain ⟨a7, h7, h⟩ := exceptBind_ok h
    obtain ⟨a8, h8, h⟩ := exceptBind_ok h
    obtain ⟨a9, h9, h⟩ := exceptBind_ok h
    obtain ⟨a10, h10, h⟩ := exceptBind_ok h
    injection h with h11
    subst h11
    rfl

/-- A value equal to a string literal is that literal. -/

lemma pyEqStr_some {v : Option PyVal} {lit : String}
    (h : pyEqStr v lit = true) : v = some (.str lit) := by
  cases v with
  | none => simp [pyEqStr] at h
  | some pv =>
    cases pv <;> simp [pyEqStr] at h
    rw [h]

/-- A successful Event.from_dict determines every sub-record field from its block and the type tag from the lowered category. -/

lemma fromDict_ok_inversion {data : PyDict} {e : Event}
    (h : Event.fromDict data = .ok e) :
    omerBlock data = .ok e.omer ∧ e.holiday = holidayBlock data ∧
    parashatBlock data = .ok e.parashat ∧ zmanimBlock data = .ok e.zmanim ∧
    havdalahBlock data = .ok e.havdalah ∧ candleBlock data = .ok e.candle ∧
    shabbatBlockTwo data = .ok e.shabbat ∧
    roshChodeshBlock data = .ok e.roshchodesh ∧
    ∃ cat, categoryLower data = .ok cat ∧ e.type = eventTypeOf cat := by
  rw [Event.fromDict] at h
  obtain ⟨o1, h1, h⟩ := exceptBind_ok h
  obtain ⟨o2, h2, h⟩ := exceptBind_ok h
  obtain ⟨o3, h3, h⟩ := exceptBind_ok h
  obtain ⟨o4, h4, h⟩ := exceptBind_ok h
  obtain ⟨o5, h5, h⟩ := exceptBind_ok h
  obtain ⟨o6, h6, h⟩ := exceptBind_ok h
  obtain ⟨o7, h7, h⟩ := exceptBind_ok h
  obtain ⟨o8, h8, h⟩ := exceptBind_ok h
  obtain ⟨o9, h9, h⟩ := exceptBind_ok h
  injection h with h10
  subst h10
  exact ⟨h1, rfl, h2, h4, h5, h6, h7, h8, o9, h9, rfl⟩

/-- The lowered category of a dict whose category value is a known string. -/

lemma categoryLower_of_val {data : PyDict} {s : String}
    (h : dictGet data "category" = some (.str s)) :
    categoryLower data = .ok (pyLower s) := by
  rw [categoryLower, dictGetD, h]
  rfl

/-- Claim C3 (amended): in every successfully mapped Event, at most one of
the six sub-records holiday, parashat, zmanim, havdalah, candle and
roshchodesh is populated, and the type tag matches the populated one —
except that the category spelled "rosh chodesh" (with a space) populates
the roshchodesh sub-record while the type tag is unknown. The omer and
shabbat sub-records are exempt from the exclusivity: omer is populated
exactly when an omer key is present, and shabbat exactly when the category
is shabbat or parashat or a leyning key is present, independently of the
rest. -/

theorem C3_amended_subrecord_invariant :
    ∀ (data : PyDict) (e : Event), Event.fromDict data = .ok e →
      (([e.holiday.isSome, e.parashat.isSome, e.zmanim.isSome,
         e.havdalah.isSome, e.candle.isSome, e.roshchodesh.isSome].count true ≤ 1)
       ∧ (e.holiday.isSome = true → e.type = .holiday)
       ∧ (e.parashat.isSome = true → e.type = .parashat)
       ∧ (e.zmanim.isSome = true → e.type = .zmanim)
       ∧ (e.havdalah.isSome = true → e.type = .havdalah)
       ∧ (e.candle.isSome = true → e.type = .candles)
       ∧ (e.roshchodesh.isSome = true →
            e.type = .roshchodesh ∨
              (pyEqStr (dictGet data "category") "rosh chodesh" = true ∧
               e.type = .unknown))
       ∧ (e.omer.isSome = dictContains data "omer")
       ∧ (e.shabbat.isSome = (pyEqStr (dictGet data "category") "shabbat" ||
            pyEqStr (dictGet data "category") "parashat" ||
            dictContains data "leyning"))) := by
  intro data e h
  obtain ⟨ho, hhol, hpar, hzm, hhav, hcan, hsha, hros, cat, hcat, htype⟩ :=
    fromDict_ok_inversion h
  have hb1 : e.holiday.isSome = pyEqStr (dictGet data "category") "holiday" := by
    rw [hhol, holidayBlock_isSome]
  have hb2 := parashatBlock_ok hpar
  have hb3 := zmanimBlock_ok hzm
  have hb4 := havdalahBlock_ok hhav
  have hb5 := candleBlock_ok hcan
  have hb6 := roshChodeshBlock_ok hros
  have hom := omerBlock_ok ho
  have hsh := shabbatBlockTwo_ok hsha
  have htypeOf : ∀ lit : String, pyEqStr (dictGet data "category") lit = true →
      e.type = eventTypeOf (pyLower lit) := by
    intro lit hl
    have hv := pyEqStr_some hl
    have hc := categoryLower_of_val hv
    rw [hc] at hcat
    injection hcat with hc2
    rw [htype, ← hc2]
  refine ⟨?_, ?_, ?_, ?_, ?_, ?_, ?_, hom, hsh⟩
  · rw [hb1, hb2, hb3, hb4, hb5, hb6]
    rcases hv : dictGet data "category" with _ | vv
    · decide
    · rcases vv with _ | b | n | q | s | dtv | xs | es
      case str =>
        by_cases h1 : s = "holiday"
        · subst h1; decide
        · by_cases h2 : s = "parashat"
          · subst h2; decide
          · by_cases h3 : s = "zmanim"
            · subst h3; decide
            · by_cases h4 : s = "havdalah"
              · subst h4; decide
              · by_cases h5 : s = "candles"
                · subst h5; decide
                · by_cases h6 : s = "roshchodesh"
                  · subst h6; decide
                  · by_cases h7 : s = "rosh chodesh"
                    · subst h7; decide
                    · simp [pyEqStr, h1, h2, h3, h4, h5, h6, h7]
      all_goals simp [pyEqStr]
  · intro hh
    rw [hb1] at hh
    have ht := htypeOf "holiday" hh
    rw [ht]
    rfl
  · intro hh
    rw [hb2] at hh
    have ht := htypeOf "parashat" hh
    rw [ht]
    rfl
  · intro hh
    rw [hb3] at hh
    have ht := htypeOf "zmanim" hh
    rw [ht]
    rfl
  · intro hh
    rw [hb4] at hh
    have ht := htypeOf "havdalah" hh
    rw [ht]
    rfl
  · intro hh
    rw [hb5] at hh
    have ht := htypeOf "candles" hh
    rw [ht]
    rfl
  · intro hh
    rw [hb6] at hh
    rw [Bool.or_eq_true] at hh
    rcases hh with hh | hh
    · left
      have ht := htypeOf "roshchodesh" hh
      rw [ht]
      rfl
    · right
      refine ⟨hh, ?_⟩
      have ht := htypeOf "rosh chodesh" hh
      rw [ht]
      rfl

/-- Witness for C3 at the concrete holiday object. -/

theorem C3_amended_subrecord_invariant_witness :
    Event.fromDict [("category", PyVal.str "holiday")] = .ok
      { title := PyVal.str "", date := Option.none, type := .holiday,
        hebrew := PyVal.none, link := PyVal.none, original_title := PyVal.none,
        omer := Option.none, zmanim := Option.none,
        holiday := some { yomtov := PyVal.bool false, subcategory := PyVal.none,
                          memo := PyVal.none, leyning := PyVal.none },
        parashat := Option.none, havdalah := Option.none, candle := Option.none,
        shabbat := Option.none, roshchodesh := Option.none }
    ∧ (([(some { yomtov := PyVal.bool false, subcategory := PyVal.none,
                 memo := PyVal.none,
                 leyning := PyVal.none } : Option HolidayInfo).isSome,
         (Option.none : Option ParashatInfo).isSome,
         (Option.none : Option ZmanimEvent).isSome,
         (Option.none : Option HavdalahInfo).isSome,
         (Option.none : Option CandleInfo).isSome,
         (Option.none : Option RoshChodeshInfo).isSome].count true ≤ 1)) :=
  ⟨rfl,
   (C3_amended_subrecord_invariant [("category", PyVal.str "holiday")]
     { title := PyVal.str "", date := Option.none, type := .holiday,
       hebrew := PyVal.none, link := PyVal.none, original_title := PyVal.none,
       omer := Option.none, zmanim := Option.none,
       holiday := some { yomtov := PyVal.bool false, subcategory := PyVal.none,
                         memo := PyVal.none, leyning := PyVal.none },
       parashat := Option.none, havdalah := Option.none, candle := Option.none,
       shabbat := Option.none, roshchodesh := Option.none } rfl).1⟩

end Hebcal
